import Mathlib

/-!
# Verification of the order-lifecycle and stock subsystem

This file gives a shallow embedding, in Lean 4, of the core endpoints of the
e-commerce server (`src/unnamed/part_003`): the stock ledger
(`PUT /api/products/bulk-stock`, `POST /api/products/reserve-stock`,
`POST /api/products/restore-stock`), the order move engine
(`POST /api/orders/move`), the cancellation workflow
(`POST /api/orders/cancel-request`, `POST /api/orders/check-cancellation-requests`,
`PUT /api/orders/cancellation-request/:requestId`), and the return workflow
(`PUT /api/orders/return-request/:requestId`).

Modelling conventions:
* A MongoDB collection is a `List` of documents; `insertOne` appends,
  `findOne {_id: x}` is first-match, `deleteOne {_id: x}` removes the first
  match and reports how many documents it removed.
* `_id` values assigned by the database are modelled by a `nextId` counter in
  the state, with a well-formedness invariant that every stored id is below
  `nextId`; this captures that `insertOne` always produces a fresh id.
* JavaScript `null`/`undefined`/absent fields are modelled by `Option`;
  the JS `a || b` fallback chains are modelled by helpers that also treat the
  falsy values `""` and `0` as absent, exactly as `||` does.
* BSON values are type-tagged: an ObjectId and a String never compare equal
  in a MongoDB query, which the `BVal` type captures.
* Wall-clock timestamps (`new Date()`) are passed in as a `now : Nat` argument.
* The window in which a concurrent actor may remove a document between a
  `findOne` and the following `deleteOne` is modelled by passing the
  collection contents observed by the delete as an explicit argument
  (`srcAtDelete`); the sequential, interference-free run passes the unchanged
  collection.
-/

/-- Digit-string value (structurally recursive model of `String.toNat?` on
its defined inputs): `none` on the empty string or any non-digit. -/
def digitsVal? (l : List Char) : Option Nat :=
  match l with
  | [] => none
  | _ =>
    l.foldl (fun acc c =>
      match acc with
      | none => none
      | some n => if c.isDigit then some (n * 10 + (c.toNat - 48)) else none)
      (some 0)

/-- Parse a decimal `Nat` from a string. -/
def parseNat? (s : String) : Option Nat := digitsVal? s.data

/-- Parse a decimal `Int` (optional leading minus) from a string. -/
def parseInt? (s : String) : Option Int :=
  match s.data with
  | '-' :: rest => (digitsVal? rest).map (fun n => -(n : Int))
  | _ => (digitsVal? s.data).map (fun n => (n : Int))

/-- A JS value stored in a `userId`-like field: the server handles both the
string form and the numeric form. -/
inductive UVal where
  | str (s : String)
  | num (n : Int)
  deriving DecidableEq, Repr

/-- JS truthiness of a `UVal`: `""` and `0` are falsy. -/
def UVal.truthy : UVal → Bool
  | .str s => s ≠ ""
  | .num n => n ≠ 0

/-- Model of `String(v)` in JS. -/
def UVal.asString : UVal → String
  | .str s => s
  | .num n => toString n

/-- Model of `!isNaN(Number(v)) ? Number(v) : null` in JS, on integral payloads. -/
def UVal.asNumber : UVal → Option Int
  | .num n => some n
  | .str s => parseInt? s

/-- A BSON value as compared by a MongoDB query filter: comparisons are
type-tagged, so an ObjectId never equals a String. -/
inductive BVal where
  | oid (n : Nat)
  | str (s : String)
  deriving DecidableEq, Repr

/-- Model of `v.toString()` on a BSON value (ObjectId renders as its id string). -/
def BVal.render : BVal → String
  | .oid n => toString n
  | .str s => s

/-- JS `a || b` on optional strings: `""` is falsy and falls through. -/
def jsOrS (a b : Option String) : Option String :=
  match a with
  | some s => if s = "" then b else some s
  | none => b

/-- JS `a || d` with a string default. -/
def jsGetS (a : Option String) (d : String) : String :=
  match a with
  | some s => if s = "" then d else s
  | none => d

/-- JS `a || b` on optional ints: `0` is falsy and falls through. -/
def jsOrI (a b : Option Int) : Option Int :=
  match a with
  | some n => if n = 0 then b else some n
  | none => b

/-- JS `a || d` with an int default. -/
def jsGetI (a : Option Int) (d : Int) : Int :=
  match a with
  | some n => if n = 0 then d else n
  | none => d

/-- JS `a || b` on optional `UVal`s, respecting truthiness. -/
def jsOrU (a b : Option UVal) : Option UVal :=
  match a with
  | some v => if v.truthy then some v else b
  | none => b

/-- JS `v || null` on an optional `UVal`. -/
def jsU (a : Option UVal) : Option UVal := jsOrU a none

/-- JS `s.toLowerCase()` on ASCII payloads: lower-case each character
(structurally recursive model of `String.toLower`). -/
def toLowerStr (s : String) : String :=
  String.mk (s.data.map Char.toLower)

/-- JS `String(s).slice(-6)`: the last six characters. -/
def sliceLast6 (s : String) : String :=
  String.mk ((s.data.reverse.take 6).reverse)

/-! ## Stock ledger (`Products` collection)

Source: `src/unnamed/part_003`, endpoints `PUT /api/products/bulk-stock`
(lines 312–375), `POST /api/products/reserve-stock` (495–534) and
`POST /api/products/restore-stock` (537–590). -/

/-- A document of the `Products` collection (the fields the stock endpoints
touch). -/
structure Product where
  pid : Nat
  name : String
  stockQuantity : Int
  deriving DecidableEq, Repr

/-- Model of `collection.findOne({_id: new ObjectId(id)})` on `Products`. -/
def findOneProduct (db : List Product) (id : Nat) : Option Product :=
  db.find? (fun p => p.pid = id)

/-- Model of `collection.updateOne({_id: id}, {$inc: {stockQuantity: d}})`:
increment the stock of the first matching document. -/
def incStock (db : List Product) (id : Nat) (d : Int) : List Product :=
  match db with
  | [] => []
  | p :: rest =>
    if p.pid = id then { p with stockQuantity := p.stockQuantity + d } :: rest
    else p :: incStock rest id d

/-- One entry of the `updates` array of `PUT /api/products/bulk-stock`. -/
structure StockUpdate where
  id : Nat
  quantity : Int
  deriving DecidableEq, Repr

/-- Outcome of the bulk-stock endpoint. -/
inductive BulkOutcome where
  | ok
  | notFound (msg : String)
  | insufficient (msg : String)
  deriving DecidableEq, Repr

/-- The per-update loop of `PUT /api/products/bulk-stock`: for each update,
re-fetch the product, 404 if missing, 400 if `stockQuantity < quantity`,
otherwise `$inc` the stock by `-quantity` and continue.  A failure returns
immediately, keeping the decrements already applied to earlier items. -/
def bulkStockLoop (db : List Product) : List StockUpdate → BulkOutcome × List Product
  | [] => (.ok, db)
  | u :: rest =>
    match findOneProduct db u.id with
    | none => (.notFound ("Product not found: " ++ toString u.id), db)
    | some p =>
      if p.stockQuantity < u.quantity then
        (.insufficient ("Insufficient stock for " ++ p.name ++ ". Available: "
          ++ toString p.stockQuantity ++ ", Requested: " ++ toString u.quantity), db)
      else
        bulkStockLoop (incStock db u.id (-u.quantity)) rest

/-- Model of `PUT /api/products/bulk-stock` with a well-typed `updates` array. -/
def bulkStock (db : List Product) (updates : List StockUpdate) :
    BulkOutcome × List Product :=
  bulkStockLoop db updates

/-- A document of the `StockReservations` collection. -/
structure Reservation where
  reservationId : String
  items : List StockUpdate
  createdAt : Nat
  expiresAt : Nat
  status : String
  deriving DecidableEq, Repr

/-- State touched by the reservation endpoints. -/
structure StockDB where
  products : List Product
  reservations : List Reservation
  deriving DecidableEq, Repr

/-- Model of `POST /api/products/reserve-stock`: inserts an expiry-bearing hold record
into `StockReservations` and never touches `Products`. -/
def reserveStock (now : Nat) (items : List StockUpdate) (reservationId : String)
    (expiresInMinutes : Nat) (db : StockDB) : StockDB :=
  { db with reservations := db.reservations ++
      [{ reservationId := reservationId, items := items, createdAt := now,
         expiresAt := now + expiresInMinutes * 60 * 1000, status := "active" }] }

/-- The per-item loop of `POST /api/products/restore-stock`: a missing product
is skipped (logged only); otherwise the stock is incremented by the item's
quantity. -/
def restoreStockLoop (db : List Product) : List StockUpdate → List Product
  | [] => db
  | it :: rest =>
    match findOneProduct db it.id with
    | none => restoreStockLoop db rest
    | some _ => restoreStockLoop (incStock db it.id it.quantity) rest

/-- Model of `POST /api/products/restore-stock` (effect on `Products`). -/
def restoreStock (items : List StockUpdate) (db : StockDB) : StockDB :=
  { db with products := restoreStockLoop db.products items }

/-- Read a product's stock level. -/
def stockOf (db : List Product) (id : Nat) : Option Int :=
  (findOneProduct db id).map Product.stockQuantity

/-! ## Order documents

The fields of an order document that the modelled endpoints read or write.
Absent/null JS fields are `none`; `itemsordered` is `Option` because JS
distinguishes a missing array from an empty one in `||` chains. -/

/-- The nested `payment` object of an order. -/
structure Payment where
  method : Option String := none
  type : Option String := none
  splitPercent : Option Int := none
  reference : Option String := none
  amount : Option Int := none
  changeUponDelivery : Option Int := none
  proof : Option String := none
  deriving DecidableEq, Repr

/-- The nested `shipping` object of an order. -/
structure Shipping where
  phoneNumber : Option String := none
  deriving DecidableEq, Repr

/-- One ordered line item (opaque to the modelled endpoints). -/
structure Item where
  productId : Nat
  quantity : Int
  price : Int
  deriving DecidableEq, Repr

/-- An order document, as stored in any of the order partitions. -/
structure Order where
  oid : Nat
  status : Option String := none
  displayStatus : Option String := none
  userId : Option UVal := none
  customerId : Option UVal := none
  orderNumber : Option String := none
  fullName : Option String := none
  customerName : Option String := none
  buyerinfo : Option String := none
  email : Option String := none
  phoneNumber : Option String := none
  itemsordered : Option (List Item) := none
  payment : Option Payment := none
  paymentMethod : Option String := none
  paymentType : Option String := none
  paymentSplitPercent : Option Int := none
  paymentReference : Option String := none
  paymentAmount : Option Int := none
  changeUponDelivery : Option Int := none
  proofOfPayment : Option String := none
  total : Option Int := none
  orderDate : Option Nat := none
  createdAt : Option Nat := none
  notes : Option String := none
  address : Option String := none
  shipping : Option Shipping := none
  approvedAt : Option Nat := none
  deliveredAt : Option Nat := none
  deniedAt : Option Nat := none
  denialReason : Option String := none
  returnedAt : Option Nat := none
  returnReason : Option String := none
  returnImage : Option String := none
  returnImageUploadedAt : Option Nat := none
  returnProcessedBy : Option String := none
  returnProcessingDate : Option Nat := none
  updatedAt : Option Nat := none
  lastModifiedBy : Option String := none
  cancellationReason : Option String := none
  cancelledAt : Option Nat := none
  cancellationProcessedBy : Option String := none
  cancellationRequestId : Option Nat := none
  deriving DecidableEq, Repr

/-- Model of `collection.findOne({_id: new ObjectId(id)})` on an order collection. -/
def findOrder (coll : List Order) (id : Nat) : Option Order :=
  coll.find? (fun o => o.oid = id)

/-- Model of `collection.deleteOne({_id: new ObjectId(id)})`: remove the first match. -/
def deleteOrder (coll : List Order) (id : Nat) : List Order :=
  match coll with
  | [] => []
  | o :: rest => if o.oid = id then rest else o :: deleteOrder rest id

/-- Model of `deleteOne(...).deletedCount` for an order collection. -/
def deleteOrderCount (coll : List Order) (id : Nat) : Nat :=
  if (findOrder coll id).isSome then 1 else 0

/-- The ids present in an order collection. -/
def orderIds (coll : List Order) : List Nat := coll.map Order.oid

/-! ## Order move engine

Source: `POST /api/orders/move`, `src/unnamed/part_003` lines 2526–2650. -/

/-- The order partitions reachable by `collectionMapping` in the move
endpoint, plus the id counter for freshly inserted documents. -/
structure MoveDB where
  pendingOrders : List Order
  acceptedOrders : List Order
  deliveredOrders : List Order
  deniedOrders : List Order
  returnedOrders : List Order
  nextId : Nat
  deriving DecidableEq, Repr

/-- The `collectionMapping` table of the move endpoint. -/
def collectionMapping : String → Option String
  | "orders" => some "PendingOrders"
  | "pending" => some "PendingOrders"
  | "accepted" => some "AcceptedOrders"
  | "delivered" => some "DeliveredOrders"
  | "denied" => some "DeniedOrders"
  | "returned" => some "ReturnedOrders"
  | _ => none

/-- Read a partition of `MoveDB` by its MongoDB collection name. -/
def MoveDB.coll (db : MoveDB) : String → List Order
  | "PendingOrders" => db.pendingOrders
  | "AcceptedOrders" => db.acceptedOrders
  | "DeliveredOrders" => db.deliveredOrders
  | "DeniedOrders" => db.deniedOrders
  | "ReturnedOrders" => db.returnedOrders
  | _ => []

/-- Replace a partition of `MoveDB` by its MongoDB collection name. -/
def MoveDB.setColl (db : MoveDB) (name : String) (v : List Order) : MoveDB :=
  match name with
  | "PendingOrders" => { db with pendingOrders := v }
  | "AcceptedOrders" => { db with acceptedOrders := v }
  | "DeliveredOrders" => { db with deliveredOrders := v }
  | "DeniedOrders" => { db with deniedOrders := v }
  | "ReturnedOrders" => { db with returnedOrders := v }
  | _ => db

/-- The request body of `POST /api/orders/move` (required fields present). -/
structure MoveReq where
  orderId : Nat
  operation : String
  fromCollection : String
  toCollection : String
  denialReason : Option String := none
  returnReason : Option String := none
  returnImage : Option String := none
  deriving DecidableEq, Repr

/-- Response of the move endpoint. -/
inductive MoveResp where
  | ok (newOrderId : Nat)
  | badRequest (msg : String)
  | notFound (msg : String)
  | serverError (msg : String)
  deriving DecidableEq, Repr

/-- The `switch (toCollection)` block of the move endpoint: state-specific
field mutation of the copied order.  A `toCollection` value with no case
(such as `"orders"`) leaves the status fields untouched. -/
def applyTargetStatus (now : Nat) (req : MoveReq) (o : Order) : Order :=
  match req.toCollection with
  | "pending" => { o with status := some "pending", displayStatus := some "pending" }
  | "accepted" =>
    { o with
        status := some "approved", displayStatus := some "approved",
        approvedAt := some now }
  | "delivered" =>
    { o with
        status := some "delivered", displayStatus := some "delivered",
        deliveredAt := some now }
  | "denied" =>
    let o :=
      { o with
          status := some "denied", displayStatus := some "denied",
          deniedAt := some now }
    match req.denialReason with
    | some r => if r = "" then o else { o with denialReason := some r }
    | none => o
  | "returned" =>
    let o :=
      { o with
          status := some "returned", displayStatus := some "returned",
          returnedAt := some now }
    let o :=
      match req.returnReason with
      | some r => if r = "" then o else { o with returnReason := some r }
      | none => o
    let o :=
      match req.returnImage with
      | some img => if img = "" then o else
          { o with returnImage := some img, returnImageUploadedAt := some now }
      | none => o
    { o with returnProcessedBy := some "staff", returnProcessingDate := some now }
  | _ => o

/-- Model of `POST /api/orders/move`.  `srcAtDelete` is the content of the source
collection observed by the final `deleteOne` (equal to the collection read
earlier unless a concurrent actor interfered).  On `deletedCount = 0` the
just-inserted copy is deleted from the target again and the call fails. -/
def moveOrder (now : Nat) (req : MoveReq) (db : MoveDB) (srcAtDelete : List Order) :
    MoveResp × MoveDB :=
  match collectionMapping req.fromCollection, collectionMapping req.toCollection with
  | none, _ => (.badRequest "Invalid collection names", db)
  | some _, none => (.badRequest "Invalid collection names", db)
  | some srcName, some tgtName =>
    match findOrder (db.coll srcName) req.orderId with
    | none => (.notFound ("Order not found in " ++ srcName), db)
    | some order =>
      let updatedOrder := applyTargetStatus now req order
      let updatedOrder :=
        { updatedOrder with
            oid := db.nextId,
            updatedAt := some now, lastModifiedBy := some "staff" }
      let db1 := db.setColl tgtName (db.coll tgtName ++ [updatedOrder])
      let db1 := { db1 with nextId := db1.nextId + 1 }
      if (findOrder srcAtDelete req.orderId).isSome then
        (.ok updatedOrder.oid,
         db1.setColl srcName (deleteOrder srcAtDelete req.orderId))
      else
        let db2 := db1.setColl srcName (deleteOrder srcAtDelete req.orderId)
        (.serverError "Failed to remove order from source collection",
         db2.setColl tgtName (deleteOrder (db2.coll tgtName) updatedOrder.oid))

/-- The total quantity the restore loop adds back to product `i`. -/
def sumQtyFor (items : List StockUpdate) (i : Nat) : Int :=
  ((items.filter (fun u => u.id = i)).map StockUpdate.quantity).sum

/-- The cumulative effect of the decrements the bulk-stock loop has applied. -/
def applyDecrements (db : List Product) (updates : List StockUpdate) : List Product :=
  updates.foldl (fun d u => incStock d u.id (-u.quantity)) db

/-- The initial state for the bulk-stock counterexample: two products, the
second with too little stock. -/
def c4db : List Product := [⟨1, "A", 5⟩, ⟨2, "B", 1⟩]

/-- The initial state for the reserve/restore counterexample. -/
def c5db : StockDB := ⟨[⟨1, "A", 5⟩], []⟩

/-! ## Move engine lemmas -/

/-- Well-formedness of one order collection relative to the id counter:
`_id`s are unique within the collection and below the counter. -/
def collWF (nextId : Nat) (l : List Order) : Prop :=
  (orderIds l).Nodup ∧ ∀ o ∈ l, o.oid < nextId

instance (nextId : Nat) (l : List Order) : Decidable (collWF nextId l) := by
  unfold collWF; infer_instance

/-- Well-formedness of the whole move-engine state. -/
def MoveDB.WF (db : MoveDB) : Prop :=
  collWF db.nextId db.pendingOrders ∧ collWF db.nextId db.acceptedOrders ∧
    collWF db.nextId db.deliveredOrders ∧ collWF db.nextId db.deniedOrders ∧
    collWF db.nextId db.returnedOrders

instance (db : MoveDB) : Decidable db.WF := by
  unfold MoveDB.WF; infer_instance

/-- The collection names in the range of `collectionMapping`. -/
def validCollName (n : String) : Prop :=
  n = "PendingOrders" ∨ n = "AcceptedOrders" ∨ n = "DeliveredOrders" ∨
    n = "DeniedOrders" ∨ n = "ReturnedOrders"

/-- A one-order state for the move witnesses. -/
def moveDB1 : MoveDB :=
  { pendingOrders := [{ oid := 1 }], acceptedOrders := [],
    deliveredOrders := [], deniedOrders := [], returnedOrders := [], nextId := 2 }

/-- A state for the rollback witness: the order is in Pending at read time
but the delete observes an empty Pending collection. -/
def moveDB2 : MoveDB :=
  { pendingOrders := [{ oid := 1 }], acceptedOrders := [{ oid := 2 }],
    deliveredOrders := [], deniedOrders := [], returnedOrders := [], nextId := 3 }

/-! ## Cancellation workflow

Source: `POST /api/orders/cancel-request` (`src/unnamed/part_003` lines
2861–3005), `POST /api/orders/check-cancellation-requests` (3008–3057) and
`PUT /api/orders/cancellation-request/:requestId` (3265–3355). -/

/-- Model of `new ObjectId(v)`: an ObjectId passes through, a string is parsed. -/
def BVal.toOid : BVal → Option Nat
  | .oid n => some n
  | .str s => parseNat? s

/-- A document of the `CancellationRequests` collection, as written by
`POST /api/orders/cancel-request` and updated by the decision endpoint. -/
structure CancellationRequest where
  rid : Nat
  originalOrderId : BVal
  userId : Option UVal := none
  userIdString : Option String := none
  userIdNumber : Option Int := none
  orderNumber : String := ""
  customerName : String := ""
  customerEmail : String := ""
  customerPhone : String := ""
  itemsordered : List Item := []
  payment : Option Payment := none
  paymentMethod : Option String := none
  paymentType : Option String := none
  paymentSplitPercent : Option Int := none
  paymentReference : Option String := none
  paymentAmount : Option Int := none
  changeUponDelivery : Option Int := none
  proofOfPayment : Option String := none
  reason : String := ""
  additionalComments : String := ""
  originalOrderTotal : Int := 0
  originalOrderDate : Option Nat := none
  originalOrderStatus : String := ""
  status : String := ""
  submittedAt : Nat := 0
  submittedBy : String := ""
  sourceCollection : String := ""
  notes : String := ""
  address : Option String := none
  shipping : Option Shipping := none
  phoneNumber : Option String := none
  processedAt : Option Nat := none
  processedBy : Option String := none
  staffNotes : Option String := none
  deriving DecidableEq, Repr

/-- A document of the `StaffNotifications` collection (union of the fields
the modelled endpoints write; absent ones are `none`). -/
structure StaffNotification where
  sid : Option String := none
  title : String
  message : String
  type : String
  orderId : Option String := none
  requestId : Option Nat := none
  customerName : Option String := none
  customerEmail : Option String := none
  orderNumber : Option String := none
  returnType : Option String := none
  reason : Option String := none
  decision : Option String := none
  staffNotes : Option String := none
  archivedId : Option Nat := none
  read : Bool
  createdAt : Nat
  priority : Option String := none
  deriving DecidableEq, Repr

/-- The state touched by the cancellation endpoints. -/
structure CancelDB where
  pendingOrders : List Order
  acceptedOrders : List Order
  cancelledOrders : List Order
  cancellationRequests : List CancellationRequest
  staffNotifications : List StaffNotification
  nextId : Nat
  deriving DecidableEq, Repr

/-- Model of `findOne({_id: id})` on `CancellationRequests`. -/
def findCReq (l : List CancellationRequest) (id : Nat) : Option CancellationRequest :=
  l.find? (fun r => r.rid = id)

/-- Model of `deleteOne({_id: id})` on `CancellationRequests`. -/
def deleteCReq (l : List CancellationRequest) (id : Nat) : List CancellationRequest :=
  match l with
  | [] => []
  | r :: rest => if r.rid = id then rest else r :: deleteCReq rest id

/-- Model of `updateOne({_id: id}, {$set: ...})` on `CancellationRequests`. -/
def updateCReq (l : List CancellationRequest) (id : Nat)
    (f : CancellationRequest → CancellationRequest) : List CancellationRequest :=
  match l with
  | [] => []
  | r :: rest => if r.rid = id then f r :: rest else r :: updateCReq rest id f

/-- The statuses from which an order may be cancelled. -/
def cancellableStatuses : List String := ["pending", "active", "approved"]

/-- The `cancellationRequest` record literal of `POST /api/orders/cancel-request`:
a snapshot of the order plus identity keys.  Note that `originalOrderId` is
stored as the raw id *string*. -/
def mkCancellationRequest (now : Nat) (orderId : Nat) (reason : String)
    (comments : Option String) (o : Order) (srcName : String)
    (currentStatus : String) (rid : Nat) : CancellationRequest :=
  { rid := rid,
    originalOrderId := .str (toString orderId),
    userId := jsU o.userId,
    userIdString := o.userId.map UVal.asString,
    userIdNumber := o.userId.bind UVal.asNumber,
    orderNumber := jsGetS o.orderNumber ("ORD-" ++ sliceLast6 (toString orderId)),
    customerName := jsGetS (jsOrS o.fullName o.buyerinfo) "N/A",
    customerEmail := jsGetS o.email "N/A",
    customerPhone := jsGetS o.phoneNumber "N/A",
    itemsordered := o.itemsordered.getD [],
    payment := o.payment,
    paymentMethod := jsOrS o.paymentMethod (jsOrS (o.payment.bind Payment.method) none),
    paymentType := jsOrS o.paymentType (jsOrS (o.payment.bind Payment.type) none),
    paymentSplitPercent := jsOrI o.paymentSplitPercent
      (jsOrI (o.payment.bind Payment.splitPercent) none),
    paymentReference := jsOrS o.paymentReference
      (jsOrS (o.payment.bind Payment.reference) none),
    paymentAmount := jsOrI o.paymentAmount (jsOrI (o.payment.bind Payment.amount) none),
    changeUponDelivery := jsOrI o.changeUponDelivery
      (jsOrI (o.payment.bind Payment.changeUponDelivery) none),
    proofOfPayment := jsOrS o.proofOfPayment (jsOrS (o.payment.bind Payment.proof) none),
    reason := reason,
    additionalComments := jsGetS comments "",
    originalOrderTotal := jsGetI o.total 0,
    originalOrderDate := match o.orderDate with
      | some d => some d
      | none => o.createdAt,
    originalOrderStatus := currentStatus,
    status := "pending_review",
    submittedAt := now,
    submittedBy := "customer",
    sourceCollection := srcName,
    notes := jsGetS o.notes "",
    address := jsOrS o.address none,
    shipping := o.shipping,
    phoneNumber := jsOrS o.phoneNumber (jsOrS (o.shipping.bind Shipping.phoneNumber) none) }

/-- The staff notification written by `POST /api/orders/cancel-request`. -/
def mkCancelStaffNotification (now : Nat) (orderId : Nat) (reason : String)
    (req : CancellationRequest) : StaffNotification :=
  { sid := some ("cancel_" ++ toString req.rid ++ "_" ++ toString now),
    title := "🚫 New Cancellation Request",
    message := req.customerName ++ " requested to cancel order " ++ req.orderNumber,
    type := "cancellation_request",
    orderId := some (toString orderId),
    requestId := some req.rid,
    customerName := some req.customerName,
    customerEmail := some req.customerEmail,
    orderNumber := some req.orderNumber,
    reason := some reason,
    read := false,
    createdAt := now,
    priority := some "high" }

/-- Responses of the cancellation endpoints. -/
inductive CancelResp where
  | ok (requestId : Nat) (status : String)
  | badRequest (msg : String)
  | notFound (msg : String)
  | serverError (msg : String)
  deriving DecidableEq, Repr

/-- Model of `POST /api/orders/cancel-request`.  The order is looked up in
PendingOrders then AcceptedOrders; a snapshot request is inserted; then the
original order is deleted from its source partition.  `srcAtDelete` is the
source partition's content observed by that delete; when it no longer holds
the order, the just-created request is deleted again and the call fails. -/
def cancelRequest (now : Nat) (orderId : Nat) (reason : String)
    (comments : Option String) (db : CancelDB) (srcAtDelete : List Order) :
    CancelResp × CancelDB :=
  if reason = "" then
    (.badRequest "Missing required fields: orderId and reason", db)
  else
    let found : Option (Order × String) :=
      match findOrder db.pendingOrders orderId with
      | some o => some (o, "PendingOrders")
      | none =>
        match findOrder db.acceptedOrders orderId with
        | some o => some (o, "AcceptedOrders")
        | none => none
    match found with
    | none => (.notFound "Order not found or cannot be cancelled", db)
    | some (o, srcName) =>
      let currentStatus := jsGetS o.status "pending"
      if cancellableStatuses.contains (toLowerStr currentStatus) then
        let req := mkCancellationRequest now orderId reason comments o srcName
          currentStatus db.nextId
        let db1 := { db with
          cancellationRequests := db.cancellationRequests ++ [req],
          nextId := db.nextId + 1 }
        if (findOrder srcAtDelete orderId).isSome then
          let db2 :=
            if srcName = "PendingOrders" then
              { db1 with pendingOrders := deleteOrder srcAtDelete orderId }
            else
              { db1 with acceptedOrders := deleteOrder srcAtDelete orderId }
          let notif := mkCancelStaffNotification now orderId reason req
          (.ok req.rid "pending_review",
           { db2 with staffNotifications := db2.staffNotifications ++ [notif] })
        else
          let db2 :=
            if srcName = "PendingOrders" then
              { db1 with pendingOrders := deleteOrder srcAtDelete orderId }
            else
              { db1 with acceptedOrders := deleteOrder srcAtDelete orderId }
          (.serverError "Failed to remove the original order after creating the cancellation request. Please try again.",
           { db2 with
              cancellationRequests := deleteCReq db2.cancellationRequests req.rid })
      else
        (.badRequest "This order cannot be cancelled at this stage", db)

/-- Model of `POST /api/orders/check-cancellation-requests`: finds requests whose
`originalOrderId` is among the given ids *converted to ObjectIds* and whose
status is pending, and keys the result map by `originalOrderId.toString()`. -/
def checkCancellationRequests (orderIds : List Nat) (db : CancelDB) :
    List (String × Bool) :=
  let objectIds := orderIds.map BVal.oid
  let pendingCancellations := db.cancellationRequests.filter
    (fun r => objectIds.contains r.originalOrderId &&
      (["pending_review", "pending"].contains r.status))
  pendingCancellations.foldl (fun m r => m ++ [(r.originalOrderId.render, true)]) []

/-- Model of `PUT /api/orders/cancellation-request/:requestId`: marks the request
approved/rejected; on approve it additionally searches PendingOrders and
AcceptedOrders for the *live* original order and, only if found there, copies
it into CancelledOrders and deletes it. -/
def processCancellationDecision (now : Nat) (requestId : Nat) (action : String)
    (staffNotes : Option String) (db : CancelDB) : CancelResp × CancelDB :=
  if ["approve", "reject"].contains action then
    match findCReq db.cancellationRequests requestId with
    | none => (.notFound "Cancellation request not found", db)
    | some creq =>
      let newStatus := if action = "approve" then "approved" else "rejected"
      let db1 := { db with
        cancellationRequests := updateCReq db.cancellationRequests requestId
          (fun r => { r with
            status := newStatus, processedAt := some now,
            processedBy := some "staff", staffNotes := some (jsGetS staffNotes "") }) }
      if action = "approve" then
        match BVal.toOid creq.originalOrderId with
        | none => (.serverError "Failed to process cancellation request", db1)
        | some origId =>
          let mkCancelled (o : Order) : Order :=
            { o with
                oid := db1.nextId,
                cancellationReason := some creq.reason,
                cancelledAt := some now,
                cancellationProcessedBy := some "staff",
                cancellationRequestId := some requestId }
          match findOrder db1.pendingOrders origId with
          | some o =>
            (.ok requestId newStatus,
             { db1 with
                cancelledOrders := db1.cancelledOrders ++ [mkCancelled o],
                pendingOrders := deleteOrder db1.pendingOrders origId,
                nextId := db1.nextId + 1 })
          | none =>
            match findOrder db1.acceptedOrders origId with
            | some o =>
              (.ok requestId newStatus,
               { db1 with
                  cancelledOrders := db1.cancelledOrders ++ [mkCancelled o],
                  acceptedOrders := deleteOrder db1.acceptedOrders origId,
                  nextId := db1.nextId + 1 })
            | none => (.ok requestId newStatus, db1)
      else
        (.ok requestId newStatus, db1)
  else
    (.badRequest "Invalid action. Must be 'approve' or 'reject'", db)

/-! ## Cancellation workflow lemmas -/

/-- Well-formedness of the cancellation state: unique, counter-bounded ids. -/
def CancelDB.WF (db : CancelDB) : Prop :=
  collWF db.nextId db.pendingOrders ∧ collWF db.nextId db.acceptedOrders ∧
    (db.cancellationRequests.map CancellationRequest.rid).Nodup ∧
    ∀ r ∈ db.cancellationRequests, r.rid < db.nextId

instance (db : CancelDB) : Decidable db.WF := by
  unfold CancelDB.WF; infer_instance

/-- A one-pending-order state for the cancellation witnesses. -/
def c6db : CancelDB :=
  { pendingOrders := [{ oid := 1, status := some "pending" }], acceptedOrders := [],
    cancelledOrders := [], cancellationRequests := [], staffNotifications := [],
    nextId := 2 }

/-- A one-request state for the reject witness. -/
def c7db : CancelDB :=
  { pendingOrders := [], acceptedOrders := [], cancelledOrders := [],
    cancellationRequests :=
      [{ rid := 1, originalOrderId := .str "9", status := "pending_review" }],
    staffNotifications := [], nextId := 2 }

/-- The request of the approve counterevidence: created by cancel-request, so
its original order (id 5) is no longer in any live partition. -/
def c1req : CancellationRequest :=
  { rid := 1, originalOrderId := .str "5", status := "pending_review",
    reason := "changed mind" }

/-- The state of the approve counterevidence. -/
def c1db : CancelDB :=
  { pendingOrders := [], acceptedOrders := [], cancelledOrders := [],
    cancellationRequests := [c1req], staffNotifications := [], nextId := 2 }

/-! ## Return workflow

Source: `PUT /api/orders/return-request/:requestId`
(`src/unnamed/part_003` lines 3089–3263); the request documents are written
by `POST /api/orders/return-request` (2743–2858). -/

/-- JS `a || b` on options whose payload is truthy when present
(objects, arrays, dates). -/
def optOr {α : Type} (a b : Option α) : Option α :=
  match a with
  | some x => some x
  | none => b

/-- A document of the `ReturnRequests` collection.  `originalOrderId` is
stored by the creation endpoint as the order's id string; it is modelled by
the referenced id. -/
structure ReturnRequest where
  rrId : Nat
  originalOrderId : Option Nat := none
  orderNumber : Option String := none
  customerName : Option String := none
  customerEmail : Option String := none
  customerPhone : Option String := none
  returnType : Option String := none
  selectedItems : Option (List Item) := none
  itemsordered : Option (List Item) := none
  reason : Option String := none
  returnReason : Option String := none
  additionalComments : Option String := none
  returnImage : Option String := none
  originalOrderTotal : Option Int := none
  originalOrderDate : Option Nat := none
  status : Option String := none
  submittedAt : Option Nat := none
  createdAt : Option Nat := none
  submittedBy : Option String := none
  sourceCollection : Option String := none
  userId : Option UVal := none
  deriving DecidableEq, Repr

/-- The archived record inserted into `ReturnedOrders` by a decision. -/
structure ArchivedReturn where
  aid : Nat
  requestId : Nat
  status : String
  action : String
  staffNotes : String
  staffDecisionImage : Option String
  originalOrderId : Option Nat
  orderNumber : Option String
  customerName : String
  customerEmail : String
  customerPhone : String
  returnType : String
  customerReason : String
  selectedItems : List Item
  customerImage : Option String
  staffDecision : String
  originalOrderCollection : Option String
  submittedAt : Nat
  processedAt : Nat
  processedBy : String
  requestSnapshot : ReturnRequest
  originalOrderSnapshot : Option Order
  deriving DecidableEq, Repr

/-- A document of the `UserNotifications` collection. -/
structure UserNotification where
  userId : UVal
  title : String
  message : String
  type : String
  orderId : Option Nat
  orderNumber : Option String
  requestId : Nat
  returnType : String
  staffNotes : Option String
  read : Bool
  createdAt : Nat
  deriving DecidableEq, Repr

/-- The state touched by the return-decision endpoint.  `notificationLog`
records the sequence of successful notification inserts (it is the order of
the writes, not a stored collection). -/
structure ReturnDB where
  deliveredOrders : List Order
  acceptedOrders : List Order
  pendingOrders : List Order
  ordersColl : List Order
  returnedOrders : List ArchivedReturn
  returnRequests : List ReturnRequest
  userNotifications : List UserNotification
  staffNotifications : List StaffNotification
  notificationLog : List String
  nextId : Nat
  deriving DecidableEq, Repr

/-- Model of `findOne({_id: id})` on `ReturnRequests`. -/
def findRR (l : List ReturnRequest) (id : Nat) : Option ReturnRequest :=
  l.find? (fun r => r.rrId = id)

/-- Model of `deleteOne({_id: id})` on `ReturnRequests`. -/
def deleteRR (l : List ReturnRequest) (id : Nat) : List ReturnRequest :=
  match l with
  | [] => []
  | r :: rest => if r.rrId = id then rest else r :: deleteRR rest id

/-- Model of `deleteOne({_id: id})` on `ReturnedOrders`. -/
def deleteArch (l : List ArchivedReturn) (id : Nat) : List ArchivedReturn :=
  match l with
  | [] => []
  | a :: rest => if a.aid = id then rest else a :: deleteArch rest id

/-- The decision endpoint's search for the original order, in the source's
collection order: DeliveredOrders, AcceptedOrders, PendingOrders, Orders.
A missing or unparsable `originalOrderId` throws inside the per-collection
try/catch and is skipped, leaving the order unfound. -/
def locateOrder (db : ReturnDB) :
    Option Nat → Option (Order × String)
  | none => none
  | some oid =>
    match findOrder db.deliveredOrders oid with
    | some o => some (o, "DeliveredOrders")
    | none =>
      match findOrder db.acceptedOrders oid with
      | some o => some (o, "AcceptedOrders")
      | none =>
        match findOrder db.pendingOrders oid with
        | some o => some (o, "PendingOrders")
        | none =>
          match findOrder db.ordersColl oid with
          | some o => some (o, "Orders")
          | none => none

/-- Read an order collection of `ReturnDB` by its MongoDB name. -/
def ReturnDB.coll (db : ReturnDB) : String → List Order
  | "DeliveredOrders" => db.deliveredOrders
  | "AcceptedOrders" => db.acceptedOrders
  | "PendingOrders" => db.pendingOrders
  | "Orders" => db.ordersColl
  | _ => []

/-- Model of `deleteOne({_id: oid})` on the named order collection of `ReturnDB`. -/
def deleteFromColl (db : ReturnDB) (name : String) (oid : Nat) : ReturnDB :=
  match name with
  | "DeliveredOrders" => { db with deliveredOrders := deleteOrder db.deliveredOrders oid }
  | "AcceptedOrders" => { db with acceptedOrders := deleteOrder db.acceptedOrders oid }
  | "PendingOrders" => { db with pendingOrders := deleteOrder db.pendingOrders oid }
  | "Orders" => { db with ordersColl := deleteOrder db.ordersColl oid }
  | _ => db

/-- The `archivedRecord` literal of the return-decision endpoint. -/
def mkArchivedReturn (now : Nat) (requestId : Nat) (r : ReturnRequest)
    (action decisionStatus : String) (staffNotes returnImage : Option String)
    (found : Option (Order × String)) (aid : Nat) : ArchivedReturn :=
  let orig : Option Order := found.map Prod.fst
  { aid := aid,
    requestId := requestId,
    status := decisionStatus,
    action := action,
    staffNotes := jsGetS staffNotes "",
    staffDecisionImage := jsOrS returnImage none,
    originalOrderId := r.originalOrderId,
    orderNumber := jsOrS r.orderNumber (jsOrS (orig.bind Order.orderNumber)
      ((r.originalOrderId).map (fun oid => "ORD-" ++ sliceLast6 (toString oid)))),
    customerName := jsGetS (jsOrS r.customerName (jsOrS (orig.bind Order.fullName)
      (jsOrS (orig.bind Order.customerName) (orig.bind Order.buyerinfo)))) "N/A",
    customerEmail := jsGetS (jsOrS r.customerEmail (orig.bind Order.email)) "N/A",
    customerPhone := jsGetS (jsOrS r.customerPhone (orig.bind Order.phoneNumber)) "N/A",
    returnType := jsGetS r.returnType "return",
    customerReason := jsGetS (jsOrS r.reason r.returnReason) "",
    selectedItems := (optOr r.selectedItems (optOr r.itemsordered
      (orig.bind Order.itemsordered))).getD [],
    customerImage := jsOrS r.returnImage none,
    staffDecision := decisionStatus,
    originalOrderCollection := found.map Prod.snd,
    submittedAt := (optOr r.submittedAt r.createdAt).getD now,
    processedAt := now,
    processedBy := "staff",
    requestSnapshot := r,
    originalOrderSnapshot := orig }

/-- The user id the decision notifies:
`returnRequest.userId || originalOrder?.userId || originalOrder?.customerId || null`. -/
def resolveReturnUserId (r : ReturnRequest) (found : Option (Order × String)) :
    Option UVal :=
  jsOrU r.userId (jsOrU ((found.map Prod.fst).bind Order.userId)
    (jsOrU ((found.map Prod.fst).bind Order.customerId) none))

/-- The user notification written by a return decision. -/
def mkReturnUserNotification (now requestId : Nat) (action : String)
    (staffNotes : Option String) (archived : ArchivedReturn)
    (r : ReturnRequest) (uid : UVal) : UserNotification :=
  let shownOrder := archived.orderNumber.getD "null"
  let notes := jsGetS staffNotes ""
  { userId := uid,
    title := if action = "approve" then "↩️ Return Request Approved"
      else "🚫 Return Request Rejected",
    message :=
      if action = "approve" then
        "Your return request for order " ++ shownOrder ++ " has been approved. " ++
          (if notes = "" then "We will begin processing the return shortly."
           else "Staff notes: " ++ notes)
      else
        "Your return request for order " ++ shownOrder ++ " has been rejected. " ++
          (if notes = "" then "Please contact us if you would like to discuss this decision."
           else "Reason: " ++ notes),
    type := if action = "approve" then "order_return_approved"
      else "order_return_rejected",
    orderId := r.originalOrderId,
    orderNumber := archived.orderNumber,
    requestId := requestId,
    returnType := archived.returnType,
    staffNotes := jsOrS staffNotes none,
    read := false,
    createdAt := now }

/-- The staff notification written by a return decision. -/
def mkReturnStaffNotification (now requestId : Nat) (action : String)
    (staffNotes : Option String) (archived : ArchivedReturn)
    (r : ReturnRequest) : StaffNotification :=
  let shownOrder := archived.orderNumber.getD "null"
  let notes := jsGetS staffNotes ""
  { title := if action = "approve" then "✅ Return Request Processed (Approved)"
      else "❌ Return Request Processed (Rejected)",
    message := "Return request for order " ++ shownOrder ++ " (" ++
      archived.customerName ++ ") has been " ++
      (if action = "approve" then "approved" else "rejected") ++ ". " ++
      (if notes = "" then "" else "Notes: " ++ notes),
    type := if action = "approve" then "return_processed_approved"
      else "return_processed_rejected",
    orderId := r.originalOrderId.map toString,
    orderNumber := archived.orderNumber,
    requestId := some requestId,
    customerName := some archived.customerName,
    customerEmail := some archived.customerEmail,
    returnType := some archived.returnType,
    decision := some archived.staffDecision,
    staffNotes := jsOrS staffNotes none,
    archivedId := some archived.aid,
    read := false,
    createdAt := now,
    priority := some "medium" }

/-- The two notification writes at the end of a return decision: the user
notification (only when a user id resolves) and then the staff notification;
each insert may fail (`userNotifOk`/`staffNotifOk` false), which is caught and
logged and leaves the state untouched. -/
def applyReturnNotifications (now requestId : Nat) (action : String)
    (staffNotes : Option String) (archived : ArchivedReturn) (r : ReturnRequest)
    (found : Option (Order × String)) (userNotifOk staffNotifOk : Bool)
    (db3 : ReturnDB) : ReturnDB :=
  let db4 :=
    match resolveReturnUserId r found with
    | some uid =>
      if userNotifOk then
        { db3 with
            userNotifications := db3.userNotifications ++
              [mkReturnUserNotification now requestId action staffNotes
                archived r uid],
            notificationLog := db3.notificationLog ++ ["user"] }
      else db3
    | none => db3
  if staffNotifOk then
    { db4 with
        staffNotifications := db4.staffNotifications ++
          [mkReturnStaffNotification now requestId action staffNotes
            archived r],
        notificationLog := db4.notificationLog ++ ["staff"] }
  else db4

/-- Response of the return-decision endpoint. -/
inductive ReturnResp where
  | ok (msg : String) (status : String) (archivedId : Nat)
  | badRequest (msg : String)
  | notFound (msg : String)
  | serverError (msg : String)
  deriving DecidableEq, Repr

/-- Model of `PUT /api/orders/return-request/:requestId`: archive a merged record into
`ReturnedOrders`, delete the return request, delete the original order only
on approve (and only when located), then write the user notification (when a
user id resolves) and the staff notification, in that order; a failed
notification insert (`userNotifOk`/`staffNotifOk` false) is caught and logged
and changes nothing else. -/
def processReturnDecision (now requestId : Nat) (action : String)
    (staffNotes returnImage : Option String) (userNotifOk staffNotifOk : Bool)
    (db : ReturnDB) : ReturnResp × ReturnDB :=
  if ["approve", "reject"].contains action then
    match findRR db.returnRequests requestId with
    | none => (.notFound "Return request not found", db)
    | some r =>
      let found := locateOrder db r.originalOrderId
      let decisionStatus := if action = "approve" then "accepted" else "rejected"
      let archived := mkArchivedReturn now requestId r action decisionStatus
        staffNotes returnImage found db.nextId
      let db1 := { db with
        returnedOrders := db.returnedOrders ++ [archived],
        nextId := db.nextId + 1 }
      if (findRR db1.returnRequests requestId).isSome then
        let db2 := { db1 with returnRequests := deleteRR db1.returnRequests requestId }
        let db3 :=
          if action = "approve" then
            match found, r.originalOrderId with
            | some (_, collName), some oid => deleteFromColl db2 collName oid
            | _, _ => db2
          else db2
        let db5 := applyReturnNotifications now requestId action staffNotes
          archived r found userNotifOk staffNotifOk db3
        (.ok ("Return request " ++ action ++ "d successfully") decisionStatus
          archived.aid, db5)
      else
        (.serverError "Failed to remove original return request",
         { db1 with returnedOrders := deleteArch db1.returnedOrders archived.aid })
  else
    (.badRequest "Invalid action. Must be 'approve' or 'reject'", db)

/-- The order-collection names searched by the return decision. -/
def validReturnColl (n : String) : Prop :=
  n = "DeliveredOrders" ∨ n = "AcceptedOrders" ∨ n = "PendingOrders" ∨ n = "Orders"

/-- The order and request of the return-decision witnesses. -/
def c8ord : Order :=
  { oid := 7, status := some "delivered", userId := some (.num 42) }

/-- A return request referencing `c8ord`, with a customer image. -/
def c8req : ReturnRequest :=
  { rrId := 1, originalOrderId := some 7, returnImage := some "img.png",
    returnType := some "return", reason := some "defective" }

/-- State for the return-decision witnesses. -/
def c8db : ReturnDB :=
  { deliveredOrders := [c8ord], acceptedOrders := [], pendingOrders := [],
    ordersColl := [], returnedOrders := [], returnRequests := [c8req],
    userNotifications := [], staffNotifications := [], notificationLog := [],
    nextId := 10 }

/-- A return request with no resolvable user: the creation endpoint stores no
`userId` on the request, and the referenced order is gone. -/
def c9req : ReturnRequest := { rrId := 1, originalOrderId := some 99 }

/-- State for the C9 counterexample. -/
def c9db : ReturnDB :=
  { deliveredOrders := [], acceptedOrders := [], pendingOrders := [],
    ordersColl := [], returnedOrders := [], returnRequests := [c9req],
    userNotifications := [], staffNotifications := [], notificationLog := [],
    nextId := 5 }

/-! ## Theorems -/

/-! ## Basic lemmas about the collection primitives -/

theorem findOrder_eq_none_iff (l : List Order) (id : Nat) :
    findOrder l id = none ↔ ∀ o ∈ l, o.oid ≠ id := by
  simp [findOrder, List.find?_eq_none]

theorem findOrder_mem {l : List Order} {id : Nat} {o : Order}
    (h : findOrder l id = some o) : o ∈ l ∧ o.oid = id := by
  refine ⟨List.mem_of_find?_eq_some h, ?_⟩
  have := List.find?_some h
  simpa using this

theorem deleteOrder_of_not_mem {l : List Order} {id : Nat}
    (h : ∀ o ∈ l, o.oid ≠ id) : deleteOrder l id = l := by
  induction l with
  | nil => rfl
  | cons o rest ih =>
    simp only [deleteOrder]
    rw [if_neg (h o (by simp))]
    rw [ih (fun o ho => h o (by simp [ho]))]

theorem findOrder_deleteOrder_self {l : List Order} (id : Nat)
    (h : (orderIds l).Nodup) : findOrder (deleteOrder l id) id = none := by
  induction l with
  | nil => rfl
  | cons o rest ih =>
    simp only [orderIds, List.map_cons, List.nodup_cons] at h
    simp only [deleteOrder]
    by_cases ho : o.oid = id
    · rw [if_pos ho]
      rw [findOrder_eq_none_iff]
      intro x hx hxid
      apply h.1
      rw [ho, ← hxid]
      exact List.mem_map_of_mem Order.oid hx
    · rw [if_neg ho]
      simp only [findOrder, List.find?_cons]
      rw [decide_eq_false ho]
      exact ih h.2

theorem findOrder_append_fresh {l : List Order} {id : Nat} {x : Order}
    (h : ∀ o ∈ l, o.oid ≠ id) (hx : x.oid = id) :
    findOrder (l ++ [x]) id = some x := by
  induction l with
  | nil => simp [findOrder, hx]
  | cons o rest ih =>
    simp only [List.cons_append, findOrder, List.find?_cons]
    rw [decide_eq_false (h o (by simp))]
    exact ih (fun o ho => h o (by simp [ho]))

theorem deleteOrder_append_fresh {l : List Order} {id : Nat} {x : Order}
    (h : ∀ o ∈ l, o.oid ≠ id) (hx : x.oid = id) :
    deleteOrder (l ++ [x]) id = l := by
  induction l with
  | nil => simp [deleteOrder, hx]
  | cons o rest ih =>
    simp only [List.cons_append, deleteOrder]
    rw [if_neg (h o (by simp))]
    show o :: deleteOrder (rest ++ [x]) id = o :: rest
    rw [ih (fun o ho => h o (by simp [ho]))]

/-! ## Lemmas about the stock primitives -/

theorem stockOf_incStock_same (db : List Product) (j : Nat) (d : Int) :
    stockOf (incStock db j d) j = (stockOf db j).map (· + d) := by
  induction db with
  | nil => rfl
  | cons p rest ih =>
    by_cases hp : p.pid = j
    · simp [incStock, stockOf, findOneProduct, hp]
    · simp only [incStock, if_neg hp]
      simpa [stockOf, findOneProduct, List.find?_cons, decide_eq_false hp] using ih

theorem stockOf_incStock_other (db : List Product) {i j : Nat} (d : Int)
    (h : i ≠ j) : stockOf (incStock db j d) i = stockOf db i := by
  induction db with
  | nil => rfl
  | cons p rest ih =>
    by_cases hp : p.pid = j
    · simp [incStock, stockOf, findOneProduct, hp,
        (show ¬ j = i from fun hc => h hc.symm)]
    · simp only [incStock, if_neg hp]
      by_cases hpi : p.pid = i
      · simp [stockOf, findOneProduct, List.find?_cons, decide_eq_true_eq, hpi]
      · simpa [stockOf, findOneProduct, List.find?_cons, decide_eq_false hpi] using ih

theorem findOneProduct_incStock_same (db : List Product) (j : Nat) (d : Int) :
    findOneProduct (incStock db j d) j =
      (findOneProduct db j).map (fun p => { p with stockQuantity := p.stockQuantity + d }) := by
  induction db with
  | nil => rfl
  | cons p rest ih =>
    by_cases hp : p.pid = j
    · simp [incStock, findOneProduct, hp]
    · simp only [incStock, if_neg hp]
      simpa [findOneProduct, List.find?_cons, decide_eq_false hp] using ih

theorem findOneProduct_incStock_other (db : List Product) {i j : Nat} (d : Int)
    (h : i ≠ j) : findOneProduct (incStock db j d) i = findOneProduct db i := by
  induction db with
  | nil => rfl
  | cons p rest ih =>
    by_cases hp : p.pid = j
    · simp [incStock, findOneProduct, hp,
        (show ¬ j = i from fun hc => h hc.symm)]
    · simp only [incStock, if_neg hp]
      by_cases hpi : p.pid = i
      · simp [findOneProduct, List.find?_cons, hpi]
      · simpa [findOneProduct, List.find?_cons, decide_eq_false hpi] using ih

theorem restoreStockLoop_stockOf (items : List StockUpdate) (db : List Product)
    (i : Nat) (p : Product) (h : findOneProduct db i = some p) :
    stockOf (restoreStockLoop db items) i = some (p.stockQuantity + sumQtyFor items i) := by
  induction items generalizing db p with
  | nil => simp [restoreStockLoop, sumQtyFor, stockOf, h]
  | cons it rest ih =>
    by_cases hid : it.id = i
    · subst hid
      simp only [restoreStockLoop, h]
      have hfind := findOneProduct_incStock_same db it.id it.quantity
      rw [h] at hfind
      have := ih (incStock db it.id it.quantity) _ hfind
      rw [this]
      simp [sumQtyFor]
      ring
    · simp only [restoreStockLoop]
      cases hf : findOneProduct db it.id with
      | none =>
        rw [ih db p h]
        simp [sumQtyFor, List.filter_cons, hid]
      | some q =>
        have hfi : findOneProduct (incStock db it.id it.quantity) i = some p := by
          rw [findOneProduct_incStock_other db it.quantity (fun hc => hid hc.symm), h]
        rw [ih _ _ hfi]
        simp [sumQtyFor, List.filter_cons, hid]

theorem stockOf_applyDecrements (updates : List StockUpdate) (db : List Product)
    (i : Nat) : stockOf (applyDecrements db updates) i =
      (stockOf db i).map (fun s => s - sumQtyFor updates i) := by
  induction updates generalizing db with
  | nil =>
    cases hs : stockOf db i <;> simp [applyDecrements, sumQtyFor, hs]
  | cons u rest ih =>
    have hstep : applyDecrements db (u :: rest) =
        applyDecrements (incStock db u.id (-u.quantity)) rest := rfl
    rw [hstep]
    by_cases hid : u.id = i
    · subst hid
      rw [ih]
      rw [stockOf_incStock_same]
      cases hs : stockOf db u.id
      · simp [sumQtyFor, List.filter_cons]
      · simp [sumQtyFor, List.filter_cons]
        ring
    · rw [ih]
      rw [stockOf_incStock_other db _ (fun hc => hid hc.symm)]
      cases hs : stockOf db i <;>
        simp [sumQtyFor, List.filter_cons, hid]

theorem bulkStockLoop_cases (updates : List StockUpdate) (db : List Product) :
    ((bulkStock db updates).1 = .ok →
      (bulkStock db updates).2 = applyDecrements db updates) ∧
    (∀ msg, (bulkStock db updates).1 = .insufficient msg →
      ∃ pre u post p, updates = pre ++ u :: post ∧
        findOneProduct (applyDecrements db pre) u.id = some p ∧
        p.stockQuantity < u.quantity ∧
        msg = "Insufficient stock for " ++ p.name ++ ". Available: "
          ++ toString p.stockQuantity ++ ", Requested: " ++ toString u.quantity ∧
        (bulkStock db updates).2 = applyDecrements db pre) := by
  induction updates generalizing db with
  | nil =>
    refine ⟨fun _ => rfl, fun msg h => ?_⟩
    exact absurd h (by simp [bulkStock, bulkStockLoop])
  | cons u rest ih =>
    cases hf : findOneProduct db u.id with
    | none =>
      constructor
      · intro h
        exact absurd h (by simp [bulkStock, bulkStockLoop, hf])
      · intro msg h
        exact absurd h (by simp [bulkStock, bulkStockLoop, hf])
    | some p =>
      by_cases hlt : p.stockQuantity < u.quantity
      · have heval : bulkStock db (u :: rest) =
            (.insufficient ("Insufficient stock for " ++ p.name ++ ". Available: "
              ++ toString p.stockQuantity ++ ", Requested: " ++ toString u.quantity), db) := by
          simp [bulkStock, bulkStockLoop, hf, hlt]
        refine ⟨fun h => ?_, fun msg h => ?_⟩
        · rw [heval] at h
          exact absurd h (by simp)
        · rw [heval] at h
          have hmsg : msg = "Insufficient stock for " ++ p.name ++ ". Available: "
              ++ toString p.stockQuantity ++ ", Requested: " ++ toString u.quantity := by
            simpa using h.symm
          refine ⟨[], u, rest, p, by simp, ?_, hlt, hmsg, ?_⟩
          · simpa [applyDecrements] using hf
          · rw [heval]
            rfl
      · have hrec : bulkStock db (u :: rest) =
            bulkStock (incStock db u.id (-u.quantity)) rest := by
          simp [bulkStock, bulkStockLoop, hf, hlt]
        obtain ⟨ihok, ihbad⟩ := ih (incStock db u.id (-u.quantity))
        constructor
        · intro h
          rw [hrec] at h ⊢
          rw [ihok h]
          rfl
        · intro msg h
          rw [hrec] at h
          obtain ⟨pre, u', post, p', heq, hfind, hlt', hmsg, hstate⟩ := ihbad msg h
          refine ⟨u :: pre, u', post, p', by simp [heq], hfind, hlt', hmsg, ?_⟩
          rw [hrec, hstate]
          rfl

/-- C4 counterexample: a batch whose second item is short fails with the 400
message, yet the first item's decrement has already been applied — product 1's
stock has changed from 5 to 2, so "no partial application of decrements"
is false on the code. -/
theorem bulkStock_keeps_earlier_decrements :
    (bulkStock c4db [⟨1, 3⟩, ⟨2, 2⟩]).1 =
        .insufficient "Insufficient stock for B. Available: 1, Requested: 2" ∧
      stockOf c4db 1 = some 5 ∧
      stockOf (bulkStock c4db [⟨1, 3⟩, ⟨2, 2⟩]).2 1 = some 2 ∧
      stockOf (bulkStock c4db [⟨1, 3⟩, ⟨2, 2⟩]).2 1 ≠ stockOf c4db 1 := by
  refine ⟨rfl, rfl, rfl, by decide⟩

/-- C4 (amended): a bulk-stock batch is processed item by item; if every item
passes, every product's stock drops by the total quantity requested for it;
if some item is short, the batch stops with a 400 message naming the product
and the available and requested quantities, but the decrements already applied
to the items before the failing one persist (partial application can occur). -/
theorem bulkStock_spec (db : List Product) (updates : List StockUpdate) :
    ((bulkStock db updates).1 = .ok →
      ∀ i, stockOf (bulkStock db updates).2 i =
        (stockOf db i).map (fun s => s - sumQtyFor updates i)) ∧
    (∀ msg, (bulkStock db updates).1 = .insufficient msg →
      ∃ pre u post p, updates = pre ++ u :: post ∧
        findOneProduct (applyDecrements db pre) u.id = some p ∧
        p.stockQuantity < u.quantity ∧
        msg = "Insufficient stock for " ++ p.name ++ ". Available: "
          ++ toString p.stockQuantity ++ ", Requested: " ++ toString u.quantity ∧
        (bulkStock db updates).2 = applyDecrements db pre) := by
  obtain ⟨hok, hbad⟩ := bulkStockLoop_cases updates db
  refine ⟨fun h i => ?_, hbad⟩
  rw [hok h, stockOf_applyDecrements]

/-- Scenario A instance of `bulkStock_spec`: stock 5, successful decrement of
3 leaves 2; a second decrement of 3 fails naming available 2, requested 3. -/
theorem bulkStock_spec_witness :
    stockOf (bulkStock [⟨1, "P", 5⟩] [⟨1, 3⟩]).2 1 = some 2 ∧
      (∃ pre u post p, ([⟨1, 3⟩] : List StockUpdate) = pre ++ u :: post ∧
        findOneProduct (applyDecrements [⟨1, "P", 2⟩] pre) u.id = some p ∧
        p.stockQuantity < u.quantity ∧
        "Insufficient stock for P. Available: 2, Requested: 3" =
          "Insufficient stock for " ++ p.name ++ ". Available: "
          ++ toString p.stockQuantity ++ ", Requested: " ++ toString u.quantity ∧
        (bulkStock [⟨1, "P", 2⟩] [⟨1, 3⟩]).2 = applyDecrements [⟨1, "P", 2⟩] pre) := by
  constructor
  · have h := (bulkStock_spec [⟨1, "P", 5⟩] [⟨1, 3⟩]).1 rfl 1
    simpa using h
  · exact (bulkStock_spec [⟨1, "P", 2⟩] [⟨1, 3⟩]).2 _ rfl

/-- C5 counterexample: reserving 2 units of a product with stock 5 and then
restoring the same items leaves the stock at 7, not at the pre-reservation
level 5 — `reserve-stock` never decrements, while `restore-stock`
unconditionally increments. -/
theorem reserve_restore_not_roundtrip :
    stockOf c5db.products 1 = some 5 ∧
      stockOf (restoreStock [⟨1, 2⟩]
        (reserveStock 0 [⟨1, 2⟩] "r1" 15 c5db)).products 1 = some 7 ∧
      stockOf (restoreStock [⟨1, 2⟩]
        (reserveStock 0 [⟨1, 2⟩] "r1" 15 c5db)).products 1 ≠ some 5 := by
  refine ⟨rfl, rfl, by decide⟩

/-- C5 (amended): `reserve-stock` leaves `Products` untouched, and
`restore-stock` adds each item's quantity back, so the round trip leaves each
product's stock at its pre-reservation level *plus* the restored quantity. -/
theorem reserve_restore_spec (now : Nat) (items : List StockUpdate)
    (rid : String) (mins : Nat) (db : StockDB) (i : Nat) (p : Product)
    (h : findOneProduct db.products i = some p) :
    (reserveStock now items rid mins db).products = db.products ∧
      stockOf (restoreStock items (reserveStock now items rid mins db)).products i =
        some (p.stockQuantity + sumQtyFor items i) := by
  refine ⟨rfl, ?_⟩
  exact restoreStockLoop_stockOf items db.products i p h

/-- Witness for `reserve_restore_spec` at a concrete state. -/
theorem reserve_restore_spec_witness :
    (reserveStock 0 [⟨1, 2⟩] "r1" 15 c5db).products = c5db.products ∧
      stockOf (restoreStock [⟨1, 2⟩]
        (reserveStock 0 [⟨1, 2⟩] "r1" 15 c5db)).products 1 = some (5 + 2) := by
  exact reserve_restore_spec 0 [⟨1, 2⟩] "r1" 15 c5db 1 ⟨1, "A", 5⟩ rfl

theorem collectionMapping_valid {s n : String}
    (h : collectionMapping s = some n) : validCollName n := by
  unfold collectionMapping at h
  unfold validCollName
  split at h <;> simp_all

theorem coll_setColl_same (db : MoveDB) {n : String} (v : List Order)
    (h : validCollName n) : (db.setColl n v).coll n = v := by
  rcases h with rfl | rfl | rfl | rfl | rfl <;> rfl

theorem coll_setColl_other (db : MoveDB) {n m : String} (v : List Order)
    (hn : validCollName n) (hne : m ≠ n) :
    (db.setColl n v).coll m = db.coll m := by
  rcases hn with rfl | rfl | rfl | rfl | rfl <;>
    (unfold MoveDB.setColl MoveDB.coll; split <;> simp_all)

theorem coll_nextIdUpdate (db : MoveDB) (k : Nat) (m : String) :
    ({ db with nextId := k } : MoveDB).coll m = db.coll m := by
  unfold MoveDB.coll
  split <;> rfl

theorem WF_coll {db : MoveDB} (hwf : db.WF) {n : String} (h : validCollName n) :
    collWF db.nextId (db.coll n) := by
  obtain ⟨h1, h2, h3, h4, h5⟩ := hwf
  rcases h with rfl | rfl | rfl | rfl | rfl <;> assumption

/-- C2: moving an order from Pending to Accepted succeeds with a freshly
assigned id distinct from the old one; the order is gone from Pending and the
new Accepted record has status "approved" and a set `approvedAt`. -/
theorem move_pending_accepted (now : Nat) (db : MoveDB) (orderId : Nat)
    (op : String) (o : Order) (hwf : db.WF)
    (h : findOrder db.pendingOrders orderId = some o) :
    (moveOrder now
        { orderId := orderId, operation := op, fromCollection := "pending",
          toCollection := "accepted" } db db.pendingOrders).1 = .ok db.nextId ∧
      db.nextId ≠ orderId ∧
      findOrder (moveOrder now
        { orderId := orderId, operation := op, fromCollection := "pending",
          toCollection := "accepted" } db db.pendingOrders).2.pendingOrders
        orderId = none ∧
      ∃ newO, findOrder (moveOrder now
          { orderId := orderId, operation := op, fromCollection := "pending",
            toCollection := "accepted" } db db.pendingOrders).2.acceptedOrders
          db.nextId = some newO ∧
        newO.status = some "approved" ∧ newO.approvedAt = some now ∧
        newO.oid ≠ orderId := by
  have hmem := findOrder_mem h
  have hlt : orderId < db.nextId := hmem.2 ▸ hwf.1.2 o hmem.1
  have hne : db.nextId ≠ orderId := Nat.ne_of_gt hlt
  have heval : (moveOrder now
      { orderId := orderId, operation := op, fromCollection := "pending",
        toCollection := "accepted" } db db.pendingOrders) =
      (.ok db.nextId,
        { db with
            pendingOrders := deleteOrder db.pendingOrders orderId,
            acceptedOrders := db.acceptedOrders ++
              [{ o with
                  oid := db.nextId,
                  status := some "approved", displayStatus := some "approved",
                  approvedAt := some now, updatedAt := some now,
                  lastModifiedBy := some "staff" }],
            nextId := db.nextId + 1 }) := by
    simp [moveOrder, collectionMapping, MoveDB.coll, MoveDB.setColl,
      applyTargetStatus, h]
  rw [heval]
  refine ⟨rfl, hne, ?_, ?_⟩
  · exact findOrder_deleteOrder_self orderId hwf.1.1
  · refine ⟨_, findOrder_append_fresh
      (fun x hx => Nat.ne_of_lt (hwf.2.1.2 x hx)) rfl, rfl, rfl, hne⟩

/-- Witness for `move_pending_accepted` on a concrete one-order state. -/
theorem move_pending_accepted_witness :
    (moveOrder 7
        { orderId := 1, operation := "accept", fromCollection := "pending",
          toCollection := "accepted" } moveDB1 moveDB1.pendingOrders).1 =
      .ok 2 ∧
      findOrder (moveOrder 7
        { orderId := 1, operation := "accept", fromCollection := "pending",
          toCollection := "accepted" } moveDB1 moveDB1.pendingOrders).2.pendingOrders
        1 = none := by
  obtain ⟨h1, _, h3, _⟩ := move_pending_accepted 7 moveDB1 1 "accept"
    { oid := 1 } (by decide) rfl
  exact ⟨h1, h3⟩

/-- C3: when the insert into the target partition has succeeded but the
delete of the original from the source observes zero matching documents, the
engine deletes the just-inserted copy again — the target partition is exactly
as before the call — and reports failure, never success. -/
theorem move_rollback (now : Nat) (req : MoveReq) (db : MoveDB)
    (srcAtDelete : List Order) (srcName tgtName : String)
    (hs : collectionMapping req.fromCollection = some srcName)
    (ht : collectionMapping req.toCollection = some tgtName)
    (hne : srcName ≠ tgtName) (o : Order)
    (hfind : findOrder (db.coll srcName) req.orderId = some o)
    (hwf : db.WF)
    (hdel : ∀ x ∈ srcAtDelete, x.oid ≠ req.orderId) :
    (moveOrder now req db srcAtDelete).1 =
        .serverError "Failed to remove order from source collection" ∧
      (moveOrder now req db srcAtDelete).2.coll tgtName = db.coll tgtName ∧
      (moveOrder now req db srcAtDelete).2.coll srcName = srcAtDelete := by
  have hsv := collectionMapping_valid hs
  have htv := collectionMapping_valid ht
  have hnone : findOrder srcAtDelete req.orderId = none :=
    (findOrder_eq_none_iff _ _).2 hdel
  set newO : Order :=
    { applyTargetStatus now req o with
        oid := db.nextId, updatedAt := some now,
        lastModifiedBy := some "staff" } with hnewO
  have heval : moveOrder now req db srcAtDelete =
      (.serverError "Failed to remove order from source collection",
        let db1 := db.setColl tgtName (db.coll tgtName ++ [newO])
        let db1 : MoveDB := { db1 with nextId := db1.nextId + 1 }
        let db2 := db1.setColl srcName (deleteOrder srcAtDelete req.orderId)
        db2.setColl tgtName (deleteOrder (db2.coll tgtName) newO.oid)) := by
    rw [moveOrder, hs, ht]
    simp only [hfind, hnone, Option.isSome_none, Bool.false_eq_true, if_false]
  rw [heval]
  refine ⟨rfl, ?_, ?_⟩
  · have h1 : ((db.setColl tgtName (db.coll tgtName ++ [newO])).setColl srcName
        (deleteOrder srcAtDelete req.orderId)).coll tgtName =
        db.coll tgtName ++ [newO] := by
      rw [coll_setColl_other _ _ hsv (Ne.symm hne), coll_setColl_same _ _ htv]
    simp only
    rw [coll_setColl_same _ _ htv]
    rw [coll_nextIdUpdate]
    rw [coll_setColl_other _ _ hsv (Ne.symm hne)]
    rw [coll_nextIdUpdate]
    rw [coll_setColl_same _ _ htv]
    exact deleteOrder_append_fresh
      (fun x hx => Nat.ne_of_lt ((WF_coll hwf htv).2 x hx)) rfl
  · simp only
    rw [coll_setColl_other _ _ htv hne]
    rw [coll_setColl_same _ _ hsv]
    exact deleteOrder_of_not_mem hdel

/-- Witness for `move_rollback` on a concrete state. -/
theorem move_rollback_witness :
    (moveOrder 7
        { orderId := 1, operation := "accept", fromCollection := "pending",
          toCollection := "accepted" } moveDB2 []).1 =
        .serverError "Failed to remove order from source collection" ∧
      (moveOrder 7
        { orderId := 1, operation := "accept", fromCollection := "pending",
          toCollection := "accepted" } moveDB2 []).2.coll "AcceptedOrders" =
        moveDB2.coll "AcceptedOrders" := by
  obtain ⟨h1, h2, _⟩ := move_rollback 7
    { orderId := 1, operation := "accept", fromCollection := "pending",
      toCollection := "accepted" } moveDB2 [] "PendingOrders" "AcceptedOrders"
    rfl rfl (by decide) { oid := 1 } rfl (by decide) (by simp)
  exact ⟨h1, h2⟩

theorem deleteCReq_append_fresh {l : List CancellationRequest} {id : Nat}
    {x : CancellationRequest} (h : ∀ r ∈ l, r.rid ≠ id) (hx : x.rid = id) :
    deleteCReq (l ++ [x]) id = l := by
  induction l with
  | nil => simp [deleteCReq, hx]
  | cons r rest ih =>
    simp only [List.cons_append, deleteCReq]
    rw [if_neg (h r (by simp))]
    show r :: deleteCReq (rest ++ [x]) id = r :: rest
    rw [ih (fun r hr => h r (by simp [hr]))]

theorem findCReq_updateCReq_self (l : List CancellationRequest) (id : Nat)
    (f : CancellationRequest → CancellationRequest)
    (hf : ∀ r, (f r).rid = r.rid) :
    findCReq (updateCReq l id f) id = (findCReq l id).map f := by
  induction l with
  | nil => rfl
  | cons r rest ih =>
    by_cases hr : r.rid = id
    · simp [updateCReq, findCReq, hr, hf r, List.find?_cons]
    · simp only [updateCReq, if_neg hr]
      simpa [findCReq, List.find?_cons, decide_eq_false hr] using ih

theorem mkCancellationRequest_rid (now orderId : Nat) (reason : String)
    (comments : Option String) (o : Order) (srcName st : String) (rid : Nat) :
    (mkCancellationRequest now orderId reason comments o srcName st rid).rid = rid :=
  rfl

theorem cancelRequest_eval_pending (now orderId : Nat) (reason : String)
    (comments : Option String) (db : CancelDB) (srcAtDelete : List Order)
    (o : Order) (hreason : reason ≠ "")
    (hp : findOrder db.pendingOrders orderId = some o)
    (hstat : cancellableStatuses.contains (toLowerStr (jsGetS o.status "pending")) = true)
    (hdel : (findOrder srcAtDelete orderId).isSome = true) :
    cancelRequest now orderId reason comments db srcAtDelete =
      (.ok db.nextId "pending_review",
        { db with
            pendingOrders := deleteOrder srcAtDelete orderId,
            cancellationRequests := db.cancellationRequests ++
              [mkCancellationRequest now orderId reason comments o "PendingOrders"
                (jsGetS o.status "pending") db.nextId],
            staffNotifications := db.staffNotifications ++
              [mkCancelStaffNotification now orderId reason
                (mkCancellationRequest now orderId reason comments o "PendingOrders"
                  (jsGetS o.status "pending") db.nextId)],
            nextId := db.nextId + 1 }) := by
  have hstat2 : toLowerStr (jsGetS o.status "pending") ∈ cancellableStatuses := by
    simpa using hstat
  simp [cancelRequest, hreason, hp, hstat2, hdel, mkCancellationRequest_rid]

theorem cancelRequest_evalFail_pending (now orderId : Nat) (reason : String)
    (comments : Option String) (db : CancelDB) (srcAtDelete : List Order)
    (o : Order) (hwf : db.WF) (hreason : reason ≠ "")
    (hp : findOrder db.pendingOrders orderId = some o)
    (hstat : cancellableStatuses.contains (toLowerStr (jsGetS o.status "pending")) = true)
    (hdel : findOrder srcAtDelete orderId = none) :
    cancelRequest now orderId reason comments db srcAtDelete =
      (.serverError "Failed to remove the original order after creating the cancellation request. Please try again.",
        { db with
            pendingOrders := srcAtDelete,
            nextId := db.nextId + 1 }) := by
  have hdel2 : deleteOrder srcAtDelete orderId = srcAtDelete :=
    deleteOrder_of_not_mem ((findOrder_eq_none_iff _ _).1 hdel)
  have hroll : deleteCReq (db.cancellationRequests ++
      [mkCancellationRequest now orderId reason comments o "PendingOrders"
        (jsGetS o.status "pending") db.nextId]) db.nextId =
      db.cancellationRequests :=
    deleteCReq_append_fresh
      (fun r hr => Nat.ne_of_lt (hwf.2.2.2 r hr)) rfl
  have hstat2 : toLowerStr (jsGetS o.status "pending") ∈ cancellableStatuses := by
    simpa using hstat
  simp [cancelRequest, hreason, hp, hstat2, hdel, hdel2, mkCancellationRequest_rid, hroll]

theorem cancelRequest_eval_accepted (now orderId : Nat) (reason : String)
    (comments : Option String) (db : CancelDB) (srcAtDelete : List Order)
    (o : Order) (hreason : reason ≠ "")
    (hp : findOrder db.pendingOrders orderId = none)
    (ha : findOrder db.acceptedOrders orderId = some o)
    (hstat : cancellableStatuses.contains (toLowerStr (jsGetS o.status "pending")) = true)
    (hdel : (findOrder srcAtDelete orderId).isSome = true) :
    cancelRequest now orderId reason comments db srcAtDelete =
      (.ok db.nextId "pending_review",
        { db with
            acceptedOrders := deleteOrder srcAtDelete orderId,
            cancellationRequests := db.cancellationRequests ++
              [mkCancellationRequest now orderId reason comments o "AcceptedOrders"
                (jsGetS o.status "pending") db.nextId],
            staffNotifications := db.staffNotifications ++
              [mkCancelStaffNotification now orderId reason
                (mkCancellationRequest now orderId reason comments o "AcceptedOrders"
                  (jsGetS o.status "pending") db.nextId)],
            nextId := db.nextId + 1 }) := by
  have hstat2 : toLowerStr (jsGetS o.status "pending") ∈ cancellableStatuses := by
    simpa using hstat
  simp [cancelRequest, hreason, hp, ha, hstat2, hdel, mkCancellationRequest_rid]

theorem cancelRequest_evalFail_accepted (now orderId : Nat) (reason : String)
    (comments : Option String) (db : CancelDB) (srcAtDelete : List Order)
    (o : Order) (hwf : db.WF) (hreason : reason ≠ "")
    (hp : findOrder db.pendingOrders orderId = none)
    (ha : findOrder db.acceptedOrders orderId = some o)
    (hstat : cancellableStatuses.contains (toLowerStr (jsGetS o.status "pending")) = true)
    (hdel : findOrder srcAtDelete orderId = none) :
    cancelRequest now orderId reason comments db srcAtDelete =
      (.serverError "Failed to remove the original order after creating the cancellation request. Please try again.",
        { db with
            acceptedOrders := srcAtDelete,
            nextId := db.nextId + 1 }) := by
  have hdel2 : deleteOrder srcAtDelete orderId = srcAtDelete :=
    deleteOrder_of_not_mem ((findOrder_eq_none_iff _ _).1 hdel)
  have hroll : deleteCReq (db.cancellationRequests ++
      [mkCancellationRequest now orderId reason comments o "AcceptedOrders"
        (jsGetS o.status "pending") db.nextId]) db.nextId =
      db.cancellationRequests :=
    deleteCReq_append_fresh
      (fun r hr => Nat.ne_of_lt (hwf.2.2.2 r hr)) rfl
  have hstat2 : toLowerStr (jsGetS o.status "pending") ∈ cancellableStatuses := by
    simpa using hstat
  simp [cancelRequest, hreason, hp, ha, hstat2, hdel, hdel2, mkCancellationRequest_rid, hroll]

theorem mkCancellationRequest_originalOrderId (now orderId : Nat) (reason : String)
    (comments : Option String) (o : Order) (srcName st : String) (rid : Nat) :
    (mkCancellationRequest now orderId reason comments o srcName st rid).originalOrderId =
      .str (toString orderId) :=
  rfl

/-- C6: a successful cancel-request snapshots the order (with both string and
numeric forms of userId) into a `pending_review` request and removes the order
from its source partition; when the source removal observes zero documents,
the just-created request is deleted again and the call fails, leaving the
request collection and both partitions as the call found them. -/
theorem cancel_request_spec (now orderId : Nat) (reason : String)
    (comments : Option String) (db : CancelDB) (srcAtDelete : List Order)
    (o : Order) (src : String) (hwf : db.WF) (hreason : reason ≠ "")
    (hwhere : (findOrder db.pendingOrders orderId = some o ∧ src = "PendingOrders") ∨
      (findOrder db.pendingOrders orderId = none ∧
        findOrder db.acceptedOrders orderId = some o ∧ src = "AcceptedOrders"))
    (hstat : cancellableStatuses.contains (toLowerStr (jsGetS o.status "pending")) = true) :
    ((findOrder srcAtDelete orderId).isSome = true →
      (cancelRequest now orderId reason comments db srcAtDelete).1 =
          .ok db.nextId "pending_review" ∧
        (cancelRequest now orderId reason comments db srcAtDelete).2.cancellationRequests =
          db.cancellationRequests ++
            [mkCancellationRequest now orderId reason comments o src
              (jsGetS o.status "pending") db.nextId] ∧
        (mkCancellationRequest now orderId reason comments o src
          (jsGetS o.status "pending") db.nextId).status = "pending_review" ∧
        (mkCancellationRequest now orderId reason comments o src
          (jsGetS o.status "pending") db.nextId).originalOrderId =
            .str (toString orderId) ∧
        (mkCancellationRequest now orderId reason comments o src
          (jsGetS o.status "pending") db.nextId).userIdString =
            o.userId.map UVal.asString ∧
        (mkCancellationRequest now orderId reason comments o src
          (jsGetS o.status "pending") db.nextId).userIdNumber =
            o.userId.bind UVal.asNumber ∧
        (mkCancellationRequest now orderId reason comments o src
          (jsGetS o.status "pending") db.nextId).itemsordered =
            o.itemsordered.getD [] ∧
        (mkCancellationRequest now orderId reason comments o src
          (jsGetS o.status "pending") db.nextId).sourceCollection = src ∧
        (if src = "PendingOrders" then
          (cancelRequest now orderId reason comments db srcAtDelete).2.pendingOrders =
              deleteOrder srcAtDelete orderId ∧
            (cancelRequest now orderId reason comments db srcAtDelete).2.acceptedOrders =
              db.acceptedOrders
         else
          (cancelRequest now orderId reason comments db srcAtDelete).2.acceptedOrders =
              deleteOrder srcAtDelete orderId ∧
            (cancelRequest now orderId reason comments db srcAtDelete).2.pendingOrders =
              db.pendingOrders)) ∧
    (findOrder srcAtDelete orderId = none →
      (cancelRequest now orderId reason comments db srcAtDelete).1 =
          .serverError "Failed to remove the original order after creating the cancellation request. Please try again." ∧
        (cancelRequest now orderId reason comments db srcAtDelete).2.cancellationRequests =
          db.cancellationRequests ∧
        (cancelRequest now orderId reason comments db srcAtDelete).2.staffNotifications =
          db.staffNotifications ∧
        (if src = "PendingOrders" then
          (cancelRequest now orderId reason comments db srcAtDelete).2.pendingOrders =
              srcAtDelete ∧
            (cancelRequest now orderId reason comments db srcAtDelete).2.acceptedOrders =
              db.acceptedOrders
         else
          (cancelRequest now orderId reason comments db srcAtDelete).2.acceptedOrders =
              srcAtDelete ∧
            (cancelRequest now orderId reason comments db srcAtDelete).2.pendingOrders =
              db.pendingOrders)) := by
  constructor
  · intro hdel
    rcases hwhere with ⟨hp, rfl⟩ | ⟨hp, ha, rfl⟩
    · rw [cancelRequest_eval_pending now orderId reason comments db srcAtDelete o
        hreason hp hstat hdel]
      refine ⟨rfl, rfl, rfl, rfl, rfl, rfl, rfl, rfl, ?_⟩
      rw [if_pos rfl]
      exact ⟨rfl, rfl⟩
    · rw [cancelRequest_eval_accepted now orderId reason comments db srcAtDelete o
        hreason hp ha hstat hdel]
      refine ⟨rfl, rfl, rfl, rfl, rfl, rfl, rfl, rfl, ?_⟩
      rw [if_neg (by decide)]
      exact ⟨rfl, rfl⟩
  · intro hdel
    rcases hwhere with ⟨hp, rfl⟩ | ⟨hp, ha, rfl⟩
    · rw [cancelRequest_evalFail_pending now orderId reason comments db srcAtDelete o
        hwf hreason hp hstat hdel]
      refine ⟨rfl, rfl, rfl, ?_⟩
      rw [if_pos rfl]
      exact ⟨rfl, rfl⟩
    · rw [cancelRequest_evalFail_accepted now orderId reason comments db srcAtDelete o
        hwf hreason hp ha hstat hdel]
      refine ⟨rfl, rfl, rfl, ?_⟩
      rw [if_neg (by decide)]
      exact ⟨rfl, rfl⟩

/-- Witness for `cancel_request_spec`: both the success branch and the
rollback branch at a concrete state. -/
theorem cancel_request_spec_witness :
    (cancelRequest 10 1 "late" none c6db c6db.pendingOrders).1 =
        .ok 2 "pending_review" ∧
      (cancelRequest 10 1 "late" none c6db []).1 =
        .serverError "Failed to remove the original order after creating the cancellation request. Please try again." ∧
      (cancelRequest 10 1 "late" none c6db []).2.cancellationRequests = [] := by
  have h1 := (cancel_request_spec 10 1 "late" none c6db c6db.pendingOrders
    { oid := 1, status := some "pending" } "PendingOrders" (by decide) (by decide)
    (Or.inl ⟨rfl, rfl⟩) (by decide)).1 rfl
  have h2 := (cancel_request_spec 10 1 "late" none c6db []
    { oid := 1, status := some "pending" } "PendingOrders" (by decide) (by decide)
    (Or.inl ⟨rfl, rfl⟩) (by decide)).2 rfl
  exact ⟨h1.1, h2.1, h2.2.1⟩

/-- C7: a staff reject of a cancellation request marks the request rejected
and touches no order partition — in particular no order is recreated, so an
order absent from the live set stays absent. -/
theorem cancellation_reject_spec (now requestId : Nat) (staffNotes : Option String)
    (db : CancelDB) (r : CancellationRequest)
    (h : findCReq db.cancellationRequests requestId = some r) :
    (processCancellationDecision now requestId "reject" staffNotes db).1 =
        .ok requestId "rejected" ∧
      findCReq (processCancellationDecision now requestId "reject" staffNotes
          db).2.cancellationRequests requestId =
        some
          { r with
              status := "rejected", processedAt := some now,
              processedBy := some "staff",
              staffNotes := some (jsGetS staffNotes "") } ∧
      (processCancellationDecision now requestId "reject" staffNotes db).2.pendingOrders =
        db.pendingOrders ∧
      (processCancellationDecision now requestId "reject" staffNotes db).2.acceptedOrders =
        db.acceptedOrders ∧
      (processCancellationDecision now requestId "reject" staffNotes db).2.cancelledOrders =
        db.cancelledOrders := by
  have heval : processCancellationDecision now requestId "reject" staffNotes db =
      (.ok requestId "rejected",
        { db with
            cancellationRequests := updateCReq db.cancellationRequests requestId
              (fun x =>
                { x with
                    status := "rejected", processedAt := some now,
                    processedBy := some "staff",
                    staffNotes := some (jsGetS staffNotes "") }) }) := by
    simp [processCancellationDecision, h]
  have hupd := findCReq_updateCReq_self db.cancellationRequests requestId
    (fun x =>
      { x with
          status := "rejected", processedAt := some now,
          processedBy := some "staff",
          staffNotes := some (jsGetS staffNotes "") })
    (fun x => rfl)
  rw [heval]
  refine ⟨rfl, ?_, rfl, rfl, rfl⟩
  simp only [hupd, h]
  rfl

/-- Witness for `cancellation_reject_spec` at a concrete state. -/
theorem cancellation_reject_spec_witness :
    (processCancellationDecision 5 1 "reject" none c7db).1 = .ok 1 "rejected" ∧
      (processCancellationDecision 5 1 "reject" none c7db).2.pendingOrders = [] ∧
      (processCancellationDecision 5 1 "reject" none c7db).2.cancelledOrders = [] := by
  obtain ⟨h1, _, h3, _, h5⟩ := cancellation_reject_spec 5 1 none c7db
    { rid := 1, originalOrderId := .str "9", status := "pending_review" } rfl
  exact ⟨h1, h3, h5⟩

/-- C1 evidence: approving a pending_review cancellation request whose
original order was (as always after cancel-request) already removed from
PendingOrders/AcceptedOrders sets the request status to "approved" but
synthesizes NO record in CancelledOrders — the approve branch only copies a
*live* order found in PendingOrders/AcceptedOrders, never the stored
snapshot. -/
theorem cancellation_approve_no_cancelled_record :
    (processCancellationDecision 50 1 "approve" none c1db).1 = .ok 1 "approved" ∧
      findCReq (processCancellationDecision 50 1 "approve" none
          c1db).2.cancellationRequests 1 =
        some
          { c1req with
              status := "approved", processedAt := some 50,
              processedBy := some "staff", staffNotes := some "" } ∧
      (processCancellationDecision 50 1 "approve" none c1db).2.cancelledOrders = [] := by
  refine ⟨by decide, by decide, by decide⟩

/-- C10: a request created by cancel-request stores `originalOrderId` as the
raw id *string*, while check-cancellation-requests matches `originalOrderId`
only against ObjectId values, so the fresh pending request is never reported:
the returned cancellationMap is empty and has no entry for the order id. -/
theorem check_cancellation_requests_misses (now orderId : Nat) (reason : String)
    (comments : Option String) (db : CancelDB) (srcAtDelete : List Order)
    (o : Order) (hreason : reason ≠ "")
    (hwhere : (findOrder db.pendingOrders orderId = some o ∧ True) ∨
      (findOrder db.pendingOrders orderId = none ∧
        findOrder db.acceptedOrders orderId = some o))
    (hstat : cancellableStatuses.contains (toLowerStr (jsGetS o.status "pending")) = true)
    (hdel : (findOrder srcAtDelete orderId).isSome = true)
    (hold : ∀ r ∈ db.cancellationRequests, r.originalOrderId ≠ .oid orderId) :
    checkCancellationRequests [orderId]
        (cancelRequest now orderId reason comments db srcAtDelete).2 = [] ∧
      (checkCancellationRequests [orderId]
        (cancelRequest now orderId reason comments db srcAtDelete).2).lookup
        (toString orderId) = none := by
  have hreqs : (cancelRequest now orderId reason comments db
      srcAtDelete).2.cancellationRequests =
      db.cancellationRequests ++
        [mkCancellationRequest now orderId reason comments o
          (if (findOrder db.pendingOrders orderId).isSome
            then "PendingOrders" else "AcceptedOrders")
          (jsGetS o.status "pending") db.nextId] := by
    rcases hwhere with ⟨hp, -⟩ | ⟨hp, ha⟩
    · rw [cancelRequest_eval_pending now orderId reason comments db srcAtDelete o
        hreason hp hstat hdel, hp]
      rfl
    · rw [cancelRequest_eval_accepted now orderId reason comments db srcAtDelete o
        hreason hp ha hstat hdel, hp]
      rfl
  have hmap : checkCancellationRequests [orderId]
      (cancelRequest now orderId reason comments db srcAtDelete).2 = [] := by
    unfold checkCancellationRequests
    rw [hreqs]
    have hfil : (db.cancellationRequests ++
        [mkCancellationRequest now orderId reason comments o
          (if (findOrder db.pendingOrders orderId).isSome
            then "PendingOrders" else "AcceptedOrders")
          (jsGetS o.status "pending") db.nextId]).filter
        (fun r => (([orderId].map BVal.oid).contains r.originalOrderId) &&
          (["pending_review", "pending"].contains r.status)) = [] := by
      rw [List.filter_eq_nil_iff]
      intro r hr
      rcases List.mem_append.1 hr with h1 | h2
      · simp [hold r h1]
      · have h3 : r = mkCancellationRequest now orderId reason comments o
            (if (findOrder db.pendingOrders orderId).isSome
              then "PendingOrders" else "AcceptedOrders")
            (jsGetS o.status "pending") db.nextId := by simpa using h2
        subst h3
        simp [mkCancellationRequest_originalOrderId]
    simp only at hfil ⊢
    rw [hfil]
    rfl
  exact ⟨hmap, by rw [hmap]; rfl⟩

/-- Witness for `check_cancellation_requests_misses` at a concrete state. -/
theorem check_cancellation_requests_misses_witness :
    checkCancellationRequests [1]
        (cancelRequest 10 1 "late" none c6db c6db.pendingOrders).2 = [] := by
  exact (check_cancellation_requests_misses 10 1 "late" none c6db
    c6db.pendingOrders { oid := 1, status := some "pending" } (by decide)
    (Or.inl ⟨rfl, trivial⟩) (by decide) rfl (by simp [c6db])).1

/-! ## Return workflow lemmas -/

theorem mkArchivedReturn_aid (now requestId : Nat) (r : ReturnRequest)
    (action decisionStatus : String) (staffNotes returnImage : Option String)
    (found : Option (Order × String)) (aid : Nat) :
    (mkArchivedReturn now requestId r action decisionStatus staffNotes
      returnImage found aid).aid = aid :=
  rfl

theorem coll_deleteFromColl_same (db : ReturnDB) {n : String} (oid : Nat)
    (h : validReturnColl n) :
    (deleteFromColl db n oid).coll n = deleteOrder (db.coll n) oid := by
  rcases h with rfl | rfl | rfl | rfl <;> rfl

theorem coll_deleteFromColl_other (db : ReturnDB) {n m : String} (oid : Nat)
    (hn : validReturnColl n) (hne : m ≠ n) :
    (deleteFromColl db n oid).coll m = db.coll m := by
  rcases hn with rfl | rfl | rfl | rfl <;>
    (unfold deleteFromColl ReturnDB.coll; split <;> simp_all)

theorem deleteFromColl_fields (db : ReturnDB) (name : String) (oid : Nat) :
    (deleteFromColl db name oid).returnedOrders = db.returnedOrders ∧
      (deleteFromColl db name oid).returnRequests = db.returnRequests ∧
      (deleteFromColl db name oid).userNotifications = db.userNotifications ∧
      (deleteFromColl db name oid).staffNotifications = db.staffNotifications ∧
      (deleteFromColl db name oid).notificationLog = db.notificationLog ∧
      (deleteFromColl db name oid).nextId = db.nextId := by
  unfold deleteFromColl
  split <;> simp

theorem locateOrder_valid {db : ReturnDB} {x : Option Nat} {o : Order}
    {name : String} (h : locateOrder db x = some (o, name)) :
    validReturnColl name := by
  unfold validReturnColl
  cases x with
  | none => simp [locateOrder] at h
  | some oid =>
    unfold locateOrder at h
    repeat' split at h
    all_goals simp_all

theorem ReturnDB.coll_congr {a b : ReturnDB}
    (h1 : a.deliveredOrders = b.deliveredOrders)
    (h2 : a.acceptedOrders = b.acceptedOrders)
    (h3 : a.pendingOrders = b.pendingOrders)
    (h4 : a.ordersColl = b.ordersColl) :
    ∀ name, a.coll name = b.coll name := by
  intro name
  unfold ReturnDB.coll
  split <;> simp_all

theorem applyReturnNotifications_core (now requestId : Nat) (action : String)
    (staffNotes : Option String) (archived : ArchivedReturn) (r : ReturnRequest)
    (found : Option (Order × String)) (uOk sOk : Bool) (db3 : ReturnDB) :
    (applyReturnNotifications now requestId action staffNotes archived r found
        uOk sOk db3).returnedOrders = db3.returnedOrders ∧
      (applyReturnNotifications now requestId action staffNotes archived r found
        uOk sOk db3).returnRequests = db3.returnRequests ∧
      (applyReturnNotifications now requestId action staffNotes archived r found
        uOk sOk db3).deliveredOrders = db3.deliveredOrders ∧
      (applyReturnNotifications now requestId action staffNotes archived r found
        uOk sOk db3).acceptedOrders = db3.acceptedOrders ∧
      (applyReturnNotifications now requestId action staffNotes archived r found
        uOk sOk db3).pendingOrders = db3.pendingOrders ∧
      (applyReturnNotifications now requestId action staffNotes archived r found
        uOk sOk db3).ordersColl = db3.ordersColl ∧
      (applyReturnNotifications now requestId action staffNotes archived r found
        uOk sOk db3).nextId = db3.nextId := by
  unfold applyReturnNotifications
  repeat' split
  all_goals simp

theorem applyReturnNotifications_user_none (now requestId : Nat) (action : String)
    (staffNotes : Option String) (archived : ArchivedReturn) (r : ReturnRequest)
    (found : Option (Order × String)) (uOk sOk : Bool) (db3 : ReturnDB)
    (h : resolveReturnUserId r found = none) :
    (applyReturnNotifications now requestId action staffNotes archived r found
      uOk sOk db3).userNotifications = db3.userNotifications := by
  unfold applyReturnNotifications
  simp only [h]
  repeat' split
  all_goals simp

theorem applyReturnNotifications_user_some (now requestId : Nat) (action : String)
    (staffNotes : Option String) (archived : ArchivedReturn) (r : ReturnRequest)
    (found : Option (Order × String)) (sOk : Bool) (db3 : ReturnDB) (uid : UVal)
    (h : resolveReturnUserId r found = some uid) :
    (applyReturnNotifications now requestId action staffNotes archived r found
      true sOk db3).userNotifications = db3.userNotifications ++
        [mkReturnUserNotification now requestId action staffNotes archived r uid] := by
  unfold applyReturnNotifications
  simp only [h]
  repeat' split
  all_goals simp_all

theorem applyReturnNotifications_user_fail (now requestId : Nat) (action : String)
    (staffNotes : Option String) (archived : ArchivedReturn) (r : ReturnRequest)
    (found : Option (Order × String)) (sOk : Bool) (db3 : ReturnDB) :
    (applyReturnNotifications now requestId action staffNotes archived r found
      false sOk db3).userNotifications = db3.userNotifications := by
  unfold applyReturnNotifications
  repeat' split
  all_goals simp_all

theorem applyReturnNotifications_staff (now requestId : Nat) (action : String)
    (staffNotes : Option String) (archived : ArchivedReturn) (r : ReturnRequest)
    (found : Option (Order × String)) (uOk : Bool) (db3 : ReturnDB) :
    (applyReturnNotifications now requestId action staffNotes archived r found
      uOk true db3).staffNotifications = db3.staffNotifications ++
        [mkReturnStaffNotification now requestId action staffNotes archived r] := by
  unfold applyReturnNotifications
  repeat' split
  all_goals simp_all

theorem applyReturnNotifications_staff_fail (now requestId : Nat) (action : String)
    (staffNotes : Option String) (archived : ArchivedReturn) (r : ReturnRequest)
    (found : Option (Order × String)) (uOk : Bool) (db3 : ReturnDB) :
    (applyReturnNotifications now requestId action staffNotes archived r found
      uOk false db3).staffNotifications = db3.staffNotifications := by
  unfold applyReturnNotifications
  repeat' split
  all_goals simp_all

theorem applyReturnNotifications_log_order (now requestId : Nat) (action : String)
    (staffNotes : Option String) (archived : ArchivedReturn) (r : ReturnRequest)
    (found : Option (Order × String)) (db3 : ReturnDB) (uid : UVal)
    (h : resolveReturnUserId r found = some uid) :
    (applyReturnNotifications now requestId action staffNotes archived r found
      true true db3).notificationLog = db3.notificationLog ++ ["user", "staff"] := by
  unfold applyReturnNotifications
  simp only [h]
  simp

theorem processReturnDecision_eval (now requestId : Nat) (action : String)
    (staffNotes returnImage : Option String) (uOk sOk : Bool) (db : ReturnDB)
    (r : ReturnRequest)
    (hc : (["approve", "reject"].contains action) = true)
    (h : findRR db.returnRequests requestId = some r) :
    processReturnDecision now requestId action staffNotes returnImage uOk sOk db =
      (.ok ("Return request " ++ action ++ "d successfully")
        (if action = "approve" then "accepted" else "rejected") db.nextId,
       applyReturnNotifications now requestId action staffNotes
         (mkArchivedReturn now requestId r action
           (if action = "approve" then "accepted" else "rejected")
           staffNotes returnImage (locateOrder db r.originalOrderId) db.nextId)
         r (locateOrder db r.originalOrderId) uOk sOk
         (if action = "approve" then
            match locateOrder db r.originalOrderId, r.originalOrderId with
            | some (_, collName), some oid =>
              deleteFromColl
                { db with
                    returnedOrders := db.returnedOrders ++
                      [mkArchivedReturn now requestId r action
                        (if action = "approve" then "accepted" else "rejected")
                        staffNotes returnImage (locateOrder db r.originalOrderId)
                        db.nextId],
                    returnRequests := deleteRR db.returnRequests requestId,
                    nextId := db.nextId + 1 } collName oid
            | _, _ =>
              { db with
                  returnedOrders := db.returnedOrders ++
                    [mkArchivedReturn now requestId r action
                      (if action = "approve" then "accepted" else "rejected")
                      staffNotes returnImage (locateOrder db r.originalOrderId)
                      db.nextId],
                  returnRequests := deleteRR db.returnRequests requestId,
                  nextId := db.nextId + 1 }
          else
            { db with
                returnedOrders := db.returnedOrders ++
                  [mkArchivedReturn now requestId r action
                    (if action = "approve" then "accepted" else "rejected")
                    staffNotes returnImage (locateOrder db r.originalOrderId)
                    db.nextId],
                returnRequests := deleteRR db.returnRequests requestId,
                nextId := db.nextId + 1 })) := by
  simp [processReturnDecision, hc, h, mkArchivedReturn_aid]
  intro hne
  rcases (by simpa using hc : action = "approve" ∨ action = "reject") with h1 | h1
  · exact absurd h1 hne
  · exact h1

theorem deleteFromColl_returnedOrders (db : ReturnDB) (name : String) (oid : Nat) :
    (deleteFromColl db name oid).returnedOrders = db.returnedOrders :=
  (deleteFromColl_fields db name oid).1

theorem returnCore_fields (act : String) (loc : Option (Order × String))
    (x : Option Nat) (db2 : ReturnDB) :
    (if act = "approve" then
        match loc, x with
        | some (_, collName), some oid => deleteFromColl db2 collName oid
        | _, _ => db2
      else db2).returnedOrders = db2.returnedOrders ∧
      (if act = "approve" then
        match loc, x with
        | some (_, collName), some oid => deleteFromColl db2 collName oid
        | _, _ => db2
      else db2).returnRequests = db2.returnRequests ∧
      (if act = "approve" then
        match loc, x with
        | some (_, collName), some oid => deleteFromColl db2 collName oid
        | _, _ => db2
      else db2).userNotifications = db2.userNotifications ∧
      (if act = "approve" then
        match loc, x with
        | some (_, collName), some oid => deleteFromColl db2 collName oid
        | _, _ => db2
      else db2).staffNotifications = db2.staffNotifications ∧
      (if act = "approve" then
        match loc, x with
        | some (_, collName), some oid => deleteFromColl db2 collName oid
        | _, _ => db2
      else db2).notificationLog = db2.notificationLog ∧
      (if act = "approve" then
        match loc, x with
        | some (_, collName), some oid => deleteFromColl db2 collName oid
        | _, _ => db2
      else db2).nextId = db2.nextId := by
  split
  · split
    · exact deleteFromColl_fields _ _ _
    · exact ⟨rfl, rfl, rfl, rfl, rfl, rfl⟩
  · exact ⟨rfl, rfl, rfl, rfl, rfl, rfl⟩

theorem returnCore_of_reject {act : String} (hact : act ≠ "approve")
    (loc : Option (Order × String)) (x : Option Nat) (db2 : ReturnDB) :
    (if act = "approve" then
        match loc, x with
        | some (_, collName), some oid => deleteFromColl db2 collName oid
        | _, _ => db2
      else db2) = db2 := by
  rw [if_neg hact]

theorem returnCore_of_none (act : String) (x : Option Nat) (db2 : ReturnDB) :
    (if act = "approve" then
        match (none : Option (Order × String)), x with
        | some (_, collName), some oid => deleteFromColl db2 collName oid
        | _, _ => db2
      else db2) = db2 := by
  split <;> rfl

theorem returnCore_of_some (o : Order) (name : String) (oid : Nat)
    (db2 : ReturnDB) :
    (if "approve" = "approve" then
        match some (o, name), some oid with
        | some (_, collName), some oid => deleteFromColl db2 collName oid
        | _, _ => db2
      else db2) = deleteFromColl db2 name oid := by
  rw [if_pos rfl]

/-- C8: a return-request decision archives into ReturnedOrders a record whose
`staffDecision` is "accepted" on approve and "rejected" on reject and whose
`customerImage` is the original submission's image; it deletes the
return-request record; and it deletes the original order from the partition
where it was found only when the action is approve — on reject (or when the
order is not found) every order partition is untouched. -/
theorem return_decision_spec (now requestId : Nat) (action : String)
    (staffNotes returnImage : Option String) (uOk sOk : Bool) (db : ReturnDB)
    (r : ReturnRequest)
    (hact : action = "approve" ∨ action = "reject")
    (h : findRR db.returnRequests requestId = some r) :
    (processReturnDecision now requestId action staffNotes returnImage uOk sOk
        db).1 =
        .ok ("Return request " ++ action ++ "d successfully")
          (if action = "approve" then "accepted" else "rejected") db.nextId ∧
      (processReturnDecision now requestId action staffNotes returnImage uOk sOk
          db).2.returnedOrders =
        db.returnedOrders ++
          [mkArchivedReturn now requestId r action
            (if action = "approve" then "accepted" else "rejected")
            staffNotes returnImage (locateOrder db r.originalOrderId) db.nextId] ∧
      (mkArchivedReturn now requestId r action
        (if action = "approve" then "accepted" else "rejected")
        staffNotes returnImage (locateOrder db r.originalOrderId)
        db.nextId).staffDecision =
          (if action = "approve" then "accepted" else "rejected") ∧
      (mkArchivedReturn now requestId r action
        (if action = "approve" then "accepted" else "rejected")
        staffNotes returnImage (locateOrder db r.originalOrderId)
        db.nextId).customerImage = jsOrS r.returnImage none ∧
      (processReturnDecision now requestId action staffNotes returnImage uOk sOk
          db).2.returnRequests = deleteRR db.returnRequests requestId ∧
      (action = "reject" →
        ∀ name, (processReturnDecision now requestId action staffNotes
          returnImage uOk sOk db).2.coll name = db.coll name) ∧
      (action = "approve" → locateOrder db r.originalOrderId = none →
        ∀ name, (processReturnDecision now requestId action staffNotes
          returnImage uOk sOk db).2.coll name = db.coll name) ∧
      (action = "approve" → ∀ o name oid, r.originalOrderId = some oid →
        locateOrder db r.originalOrderId = some (o, name) →
        (processReturnDecision now requestId action staffNotes returnImage uOk
            sOk db).2.coll name = deleteOrder (db.coll name) oid ∧
          ∀ m, m ≠ name → (processReturnDecision now requestId action staffNotes
            returnImage uOk sOk db).2.coll m = db.coll m) := by
  have hc : ["approve", "reject"].contains action = true := by
    rcases hact with rfl | rfl <;> rfl
  have heval := processReturnDecision_eval now requestId action staffNotes
    returnImage uOk sOk db r hc h
  rw [heval]
  set arch := mkArchivedReturn now requestId r action
    (if action = "approve" then "accepted" else "rejected")
    staffNotes returnImage (locateOrder db r.originalOrderId) db.nextId with harch
  set db2 : ReturnDB := { db with
    returnedOrders := db.returnedOrders ++ [arch],
    returnRequests := deleteRR db.returnRequests requestId,
    nextId := db.nextId + 1 } with hdb2
  set db3 := (if action = "approve" then
      match locateOrder db r.originalOrderId, r.originalOrderId with
      | some (_, collName), some oid => deleteFromColl db2 collName oid
      | _, _ => db2
    else db2) with hdb3
  obtain ⟨ha1, ha2, ha3, ha4, ha5, ha6, ha7⟩ := applyReturnNotifications_core
    now requestId action staffNotes arch r (locateOrder db r.originalOrderId)
    uOk sOk db3
  obtain ⟨hb1, hb2, hb3, hb4, hb5, hb6⟩ := returnCore_fields action
    (locateOrder db r.originalOrderId) r.originalOrderId db2
  have harncoll : ∀ m, (applyReturnNotifications now requestId action staffNotes
      arch r (locateOrder db r.originalOrderId) uOk sOk db3).coll m =
      db3.coll m := ReturnDB.coll_congr ha3 ha4 ha5 ha6
  have hdb2coll : ∀ m, db2.coll m = db.coll m :=
    ReturnDB.coll_congr (by rw [hdb2]) (by rw [hdb2]) (by rw [hdb2]) (by rw [hdb2])
  refine ⟨rfl, ?_, rfl, rfl, ?_, ?_, ?_, ?_⟩
  · rw [ha1, hdb3, hb1, hdb2]
  · rw [ha2, hdb3, hb2, hdb2]
  · intro ha name
    subst ha
    have hro : db3 = db2 := by
      rw [hdb3]
      exact returnCore_of_reject (by decide) _ _ _
    rw [harncoll name, hro, hdb2coll name]
  · intro ha hnone name
    subst ha
    have hro : db3 = db2 := by
      rw [hdb3, hnone]
      exact returnCore_of_none "approve" r.originalOrderId db2
    rw [harncoll name, hro, hdb2coll name]
  · intro ha o name oid hoid hloc
    subst ha
    have hvalid := locateOrder_valid hloc
    have hro : db3 = deleteFromColl db2 name oid := by
      rw [hdb3, hloc, hoid]
      exact returnCore_of_some o name oid db2
    constructor
    · rw [harncoll name, hro, coll_deleteFromColl_same db2 oid hvalid,
        hdb2coll name]
    · intro m hm
      rw [harncoll m, hro, coll_deleteFromColl_other db2 oid hvalid hm,
        hdb2coll m]

/-- Witness for `return_decision_spec`: approve deletes the located source
order, reject leaves it queryable unchanged. -/
theorem return_decision_spec_witness :
    (processReturnDecision 20 1 "approve" none none true true c8db).1 =
        .ok ("Return request " ++ "approve" ++ "d successfully") "accepted" 10 ∧
      (processReturnDecision 20 1 "approve" none none true true c8db).2.coll
        "DeliveredOrders" = [] ∧
      (processReturnDecision 20 1 "reject" none none true true c8db).2.coll
        "DeliveredOrders" = [c8ord] := by
  obtain ⟨h1, -, -, -, -, -, -, h8⟩ := return_decision_spec 20 1 "approve"
    none none true true c8db c8req (Or.inl rfl) rfl
  obtain ⟨-, -, -, -, -, g6, -, -⟩ := return_decision_spec 20 1 "reject"
    none none true true c8db c8req (Or.inr rfl) rfl
  have hloc : locateOrder c8db c8req.originalOrderId =
      some (c8ord, "DeliveredOrders") := rfl
  obtain ⟨hc1, -⟩ := h8 rfl c8ord "DeliveredOrders" 7 rfl hloc
  refine ⟨h1, ?_, ?_⟩
  · rw [hc1]
    rfl
  · rw [g6 rfl "DeliveredOrders"]
    rfl

/-- C9 counterexample: a return-request decision on a request with no
resolvable user id succeeds (both notification inserts healthy) and writes
the staff notification, but emits NO user notification — so "emits a targeted
user notification ... for every decision" is false on the code. -/
theorem return_decision_no_user_notification :
    (processReturnDecision 5 1 "reject" none none true true c9db).1 =
        .ok ("Return request " ++ "reject" ++ "d successfully") "rejected" 5 ∧
      (processReturnDecision 5 1 "reject" none none true true
        c9db).2.userNotifications = [] ∧
      (processReturnDecision 5 1 "reject" none none true true
        c9db).2.staffNotifications.length = 1 := by
  refine ⟨by decide, by decide, by decide⟩

/-- C9 (amended): each return-request decision writes the targeted user
notification (only when a user id resolves from the request or the located
order) and then the staff notification, in that order, as independent
operations: a failed notification insert is caught and changes nothing else —
the response and the archive/delete effects are the same whether or not either
insert succeeds, and the decided status is always reported. -/
theorem return_notifications_spec (now requestId : Nat) (action : String)
    (staffNotes returnImage : Option String) (uOk sOk : Bool) (db : ReturnDB)
    (r : ReturnRequest)
    (hact : action = "approve" ∨ action = "reject")
    (h : findRR db.returnRequests requestId = some r) :
    (processReturnDecision now requestId action staffNotes returnImage uOk sOk
        db).1 =
        .ok ("Return request " ++ action ++ "d successfully")
          (if action = "approve" then "accepted" else "rejected") db.nextId ∧
      (processReturnDecision now requestId action staffNotes returnImage uOk sOk
          db).2.returnedOrders =
        db.returnedOrders ++
          [mkArchivedReturn now requestId r action
            (if action = "approve" then "accepted" else "rejected")
            staffNotes returnImage (locateOrder db r.originalOrderId) db.nextId] ∧
      (processReturnDecision now requestId action staffNotes returnImage uOk sOk
          db).2.returnRequests = deleteRR db.returnRequests requestId ∧
      (resolveReturnUserId r (locateOrder db r.originalOrderId) = none →
        (processReturnDecision now requestId action staffNotes returnImage uOk
          sOk db).2.userNotifications = db.userNotifications) ∧
      (∀ uid, resolveReturnUserId r (locateOrder db r.originalOrderId) = some uid →
        uOk = true →
        (processReturnDecision now requestId action staffNotes returnImage uOk
            sOk db).2.userNotifications =
          db.userNotifications ++
            [mkReturnUserNotification now requestId action staffNotes
              (mkArchivedReturn now requestId r action
                (if action = "approve" then "accepted" else "rejected")
                staffNotes returnImage (locateOrder db r.originalOrderId)
                db.nextId) r uid]) ∧
      (uOk = false →
        (processReturnDecision now requestId action staffNotes returnImage uOk
          sOk db).2.userNotifications = db.userNotifications) ∧
      (sOk = true →
        (processReturnDecision now requestId action staffNotes returnImage uOk
            sOk db).2.staffNotifications =
          db.staffNotifications ++
            [mkReturnStaffNotification now requestId action staffNotes
              (mkArchivedReturn now requestId r action
                (if action = "approve" then "accepted" else "rejected")
                staffNotes returnImage (locateOrder db r.originalOrderId)
                db.nextId) r]) ∧
      (sOk = false →
        (processReturnDecision now requestId action staffNotes returnImage uOk
          sOk db).2.staffNotifications = db.staffNotifications) ∧
      (∀ uid, resolveReturnUserId r (locateOrder db r.originalOrderId) = some uid →
        uOk = true → sOk = true →
        (processReturnDecision now requestId action staffNotes returnImage uOk
            sOk db).2.notificationLog = db.notificationLog ++ ["user", "staff"]) := by
  have hc : ["approve", "reject"].contains action = true := by
    rcases hact with rfl | rfl <;> rfl
  have heval := processReturnDecision_eval now requestId action staffNotes
    returnImage uOk sOk db r hc h
  rw [heval]
  set arch := mkArchivedReturn now requestId r action
    (if action = "approve" then "accepted" else "rejected")
    staffNotes returnImage (locateOrder db r.originalOrderId) db.nextId with harch
  set db2 : ReturnDB := { db with
    returnedOrders := db.returnedOrders ++ [arch],
    returnRequests := deleteRR db.returnRequests requestId,
    nextId := db.nextId + 1 } with hdb2
  set db3 := (if action = "approve" then
      match locateOrder db r.originalOrderId, r.originalOrderId with
      | some (_, collName), some oid => deleteFromColl db2 collName oid
      | _, _ => db2
    else db2) with hdb3
  obtain ⟨ha1, ha2, -, -, -, -, -⟩ := applyReturnNotifications_core
    now requestId action staffNotes arch r (locateOrder db r.originalOrderId)
    uOk sOk db3
  obtain ⟨hb1, hb2, hb3, hb4, hb5, hb6⟩ := returnCore_fields action
    (locateOrder db r.originalOrderId) r.originalOrderId db2
  have h3u : db3.userNotifications = db.userNotifications := by
    rw [hdb3, hb3, hdb2]
  have h3s : db3.staffNotifications = db.staffNotifications := by
    rw [hdb3, hb4, hdb2]
  have h3l : db3.notificationLog = db.notificationLog := by
    rw [hdb3, hb5, hdb2]
  refine ⟨rfl, ?_, ?_, ?_, ?_, ?_, ?_, ?_, ?_⟩
  · rw [ha1, hdb3, hb1, hdb2]
  · rw [ha2, hdb3, hb2, hdb2]
  · intro hres
    rw [applyReturnNotifications_user_none now requestId action staffNotes arch
      r (locateOrder db r.originalOrderId) uOk sOk db3 hres, h3u]
  · intro uid hres huOk
    subst huOk
    rw [applyReturnNotifications_user_some now requestId action staffNotes arch
      r (locateOrder db r.originalOrderId) sOk db3 uid hres, h3u]
  · intro huOk
    subst huOk
    rw [applyReturnNotifications_user_fail now requestId action staffNotes arch
      r (locateOrder db r.originalOrderId) sOk db3, h3u]
  · intro hsOk
    subst hsOk
    rw [applyReturnNotifications_staff now requestId action staffNotes arch
      r (locateOrder db r.originalOrderId) uOk db3, h3s]
  · intro hsOk
    subst hsOk
    rw [applyReturnNotifications_staff_fail now requestId action staffNotes arch
      r (locateOrder db r.originalOrderId) uOk db3, h3s]
  · intro uid hres huOk hsOk
    subst huOk
    subst hsOk
    rw [applyReturnNotifications_log_order now requestId action staffNotes arch
      r (locateOrder db r.originalOrderId) db3 uid hres, h3l]

/-- Witness for `return_notifications_spec`: with a resolvable user and both
inserts healthy, the user notification is written and the log shows user
before staff; with the user insert failing, the decision still succeeds. -/
theorem return_notifications_spec_witness :
    (processReturnDecision 20 1 "approve" none none true true
        c8db).2.notificationLog = [] ++ ["user", "staff"] ∧
      (processReturnDecision 20 1 "approve" none none false true c8db).1 =
        .ok ("Return request " ++ "approve" ++ "d successfully") "accepted" 10 ∧
      (processReturnDecision 20 1 "approve" none none false true
        c8db).2.userNotifications = [] := by
  obtain ⟨-, -, -, -, -, -, -, -, h9⟩ := return_notifications_spec 20 1
    "approve" none none true true c8db c8req (Or.inl rfl) rfl
  obtain ⟨g1, -, -, -, -, g6, -, -, -⟩ := return_notifications_spec 20 1
    "approve" none none false true c8db c8req (Or.inl rfl) rfl
  refine ⟨h9 (.num 42) rfl rfl rfl, g1, g6 rfl⟩
